import Mathlib

set_option maxRecDepth 100000

/-!
# tinyhttpd: request routing, static serving, CGI relay and connection teardown

A shallow embedding of `src/main.cpp` and `src/response.cpp`.

* Bytes (`char`) are natural numbers; a C string or `std::string` is the list
  of its bytes without the terminating NUL.
* A fixed-size `char` array is the list of its cells; the content a local
  array has before the first write is an input of the model.
* System calls are recorded, in order, in a trace of `Effect`s; what the
  operating system answers (stat, open, pipe, fork, the CGI child's output)
  is read from an `Env`.
* A C loop whose trip count depends on the input takes `fuel`; running out
  is the outcome `Stop.outOfFuel`, distinct from every outcome of the code.
* A write or read outside an array is an outcome of its own in `Stop`.
* `send` is taken to accept all the bytes it is given, so the value it
  returns is their number.
-/

namespace Tinyhttpd

/-! ## Bytes and C strings -/

/-- Bytes of a string literal. -/
def str (s : String) : List Nat := s.toList.map Char.toNat

/-- The NUL byte that ends a C string. -/
def NUL : Nat := 0

/-- Line feed. -/
def LF : Nat := 10

/-- Carriage return. -/
def CR : Nat := 13

/-- C `isspace` in the "C" locale: space, `\t`, `\n`, `\v`, `\f`, `\r`. -/
def isspace (c : Nat) : Bool := c == 32 || (9 ≤ c && c ≤ 13)

/-- C `isdigit`. -/
def isdigit (c : Nat) : Bool := 48 ≤ c && c ≤ 57

/-- C `tolower` in the "C" locale. -/
def tolower (c : Nat) : Nat := if 65 ≤ c ∧ c ≤ 90 then c + 32 else c

/-- The C string stored in an array: the bytes before the first NUL. -/
def cstr (mem : List Nat) : List Nat := mem.takeWhile (fun c => c != NUL)

/-- `strcmp(a, b) == 0`. -/
def strcmp0 (a b : List Nat) : Bool := cstr a == cstr b

/-- `strcasecmp(a, b) == 0`. -/
def strcasecmp0 (a b : List Nat) : Bool := (cstr a).map tolower == (cstr b).map tolower

/-- `strncasecmp(a, b, n) == 0`: at most `n` bytes of each string are compared. -/
def strncasecmp0 (a b : List Nat) (n : Nat) : Bool :=
  ((cstr a).take n).map tolower == ((cstr b).take n).map tolower

/-- `strtoul(s, nullptr, 10)`: leading white space, an optional sign, then the
longest run of decimal digits; no digits gives 0, a value that does not fit 64
bits gives `ULONG_MAX`, a minus sign negates modulo 2^64. -/
def strtoul (s : List Nat) : Nat :=
  let t := (cstr s).dropWhile isspace
  let neg := t.head? == some 45
  let u := if t.head? == some 45 || t.head? == some 43 then t.tail else t
  let v := (u.takeWhile isdigit).foldl (fun acc d => acc * 10 + (d - 48)) 0
  if 2 ^ 64 ≤ v then 2 ^ 64 - 1 else if neg then (2 ^ 64 - v) % 2 ^ 64 else v

/-- `std::to_string` of an unsigned value: its decimal digits. -/
def to_string (n : Nat) : List Nat := (Nat.toDigits 10 n).map Char.toNat

/-- Writing `data` at the start of an array: the cells after it keep their content. -/
def store (data buffer : List Nat) : List Nat := data ++ buffer.drop data.length

/-! ## response.cpp -/

/-- The status identifiers that index `HTTP_STATUS` (the enumerators used as
designated initialisers of the table in `response.cpp`). -/
inductive HTTP_STATUS_CODE where
  | HTTP_STATUS_400
  | HTTP_STATUS_401
  | HTTP_STATUS_403
  | HTTP_STATUS_404
  | HTTP_STATUS_500
  | HTTP_STATUS_501
  | HTTP_STATUS_502
  | HTTP_STATUS_503
  deriving DecidableEq, Repr

open HTTP_STATUS_CODE

/-- The table `HTTP_STATUS`. -/
def HTTP_STATUS : HTTP_STATUS_CODE → List Nat
  | HTTP_STATUS_400 => str "400 Bad request"
  | HTTP_STATUS_401 => str "401 Access denied"
  | HTTP_STATUS_403 => str "403 Forbidden"
  | HTTP_STATUS_404 => str "404 Not found"
  | HTTP_STATUS_500 => str "500 Internal server error"
  | HTTP_STATUS_501 => str "501 not implemented"
  | HTTP_STATUS_502 => str "502 Bad Gateway"
  | HTTP_STATUS_503 => str "503 Service unavailable"

/-- The HTML body built by `assemble` (its local `http_body`). -/
def http_body (status_code : HTTP_STATUS_CODE) : List Nat :=
  str "<html><head><title>" ++ HTTP_STATUS status_code
    ++ str "</title></head><body><center><h1>" ++ HTTP_STATUS status_code
    ++ str "</h1></center><hr><center>tinyhttpd/0.1.0</center></body></html>\r\n"

/-- The header block built by `assemble` (its local `http_headers`). -/
def http_headers (status_code : HTTP_STATUS_CODE) : List Nat :=
  str "HTTP/1.0 " ++ HTTP_STATUS status_code ++ str "\r\n"
    ++ str "Server: tinyhttpd/0.0.1\r\n"
    ++ str "Content-Type: text/html; charset=utf8\r\n"
    ++ (str "Content-Length: " ++ to_string (http_body status_code).length ++ str "\r\n\r\n")

/-- The function `assemble`: header block followed by the body. -/
def assemble (status_code : HTTP_STATUS_CODE) : List Nat :=
  http_headers status_code ++ http_body status_code

/-- The functions `bad_request` ... `service_unavailable`: each sends
`assemble` of its status with one `send`; the value is the byte sequence
handed to `send`. (`main.cpp` passes the path as a second argument, which the
definitions in `response.cpp` do not take.) -/
def bad_request : List Nat := assemble HTTP_STATUS_400

/-- See `bad_request`. -/
def access_denied : List Nat := assemble HTTP_STATUS_401

/-- See `bad_request`. -/
def forbidden : List Nat := assemble HTTP_STATUS_403

/-- See `bad_request`. -/
def not_found : List Nat := assemble HTTP_STATUS_404

/-- See `bad_request`. -/
def internal_server_error : List Nat := assemble HTTP_STATUS_500

/-- See `bad_request`. -/
def not_implemented : List Nat := assemble HTTP_STATUS_501

/-- See `bad_request`. -/
def bad_gateway : List Nat := assemble HTTP_STATUS_502

/-- See `bad_request`. -/
def service_unavailable : List Nat := assemble HTTP_STATUS_503

/-! ## The operating system as seen by one request -/

/-- The four pipe ends of `exec_cgi`: `pipe_p2cgi[0]`, `pipe_p2cgi[1]`,
`pipe_cgi2p[0]`, `pipe_cgi2p[1]`. -/
inductive PipeEnd where
  | p2cgi_read
  | p2cgi_write
  | cgi2p_read
  | cgi2p_write
  deriving DecidableEq, Repr

/-- What the forked child of `exec_cgi` does, in order. -/
inductive ChildEffect where
  | dup2 (pipeEnd : PipeEnd) (target : Nat)
  | close (pipeEnd : PipeEnd)
  | putenv (entry : List Nat)
  | execl (path : List Nat)
  deriving DecidableEq, Repr

/-- System calls made while one request is served, on the client socket `fd`
unless a pipe end is named. -/
inductive Effect where
  | send (bytes : List Nat)
  | stat64 (path : List Nat)
  | ifstream_open (path : List Nat)
  | ifstream_close
  | pipe_p2cgi
  | pipe_cgi2p
  | fork (child : List ChildEffect)
  | fork_failed
  | close (pipeEnd : PipeEnd)
  | write (pipeEnd : PipeEnd) (bytes : List Nat)
  | waitpid
  deriving DecidableEq, Repr

/-- What the environment answers. -/
structure Env where
  /-- Value of `httpConfig.getWebRoot()`. -/
  webRoot : List Nat
  /-- Answer of `stat64(path)`: `st_mode`, or `none` for -1. -/
  stat64 : List Nat → Option Nat
  /-- Answer of `ifs.open(path)`: the file's bytes, or `none` when not open. -/
  ifstream_open : List Nat → Option (List Nat)
  /-- Whether `pipe(pipe_p2cgi)` succeeds. -/
  pipe_p2cgi_ok : Bool
  /-- Whether `pipe(pipe_cgi2p)` succeeds. -/
  pipe_cgi2p_ok : Bool
  /-- Whether `fork()` succeeds. -/
  fork_ok : Bool
  /-- Results of the successive `read`s of `pipe_cgi2p[0]`; an empty chunk or
  the end of the list is end-of-data. -/
  cgi_output : List (List Nat)
  /-- Exit status stored by `waitpid`. -/
  cgi_exit_status : Int
  /-- Initial content of `buffer[1024]` in `do_session`. -/
  junk_session : List Nat
  /-- Initial content of `buffer[8192]` in `exec_cgi`. -/
  junk_cgi : List Nat
  /-- Initial content of `buffer[8192]` in `get_content`. -/
  junk_content : List Nat

/-- Outcomes that are not a return of the code. -/
inductive Stop where
  /-- A write past the end of `method[32]`. -/
  | methodOverflow
  /-- A write past the end of `url_buf[255]`. -/
  | urlOverflow
  /-- A read of `buffer[i_buf]` with `i_buf = sizeof(buffer)`. -/
  | lineOverread
  /-- The expression `webpath[webpath.length() - 1]` on an empty string. -/
  | emptyWebpath
  /-- More than `sizeof(buffer)` bytes of `buffer` handed to `send` or `write`. -/
  | bufferOverread
  /-- A use of `event->data.ptr` that does not point to a live `EventData`. -/
  | danglingPointer
  /-- The call `data_set.erase(data_set.find(event_data))` when `find` gives `end()`. -/
  | eraseEnd
  /-- The model's loop bound was reached. -/
  | outOfFuel
  deriving DecidableEq, Repr

/-- A local `char` array of `n` cells whose cells hold `junk` before the first
write (cut or padded to `n` cells). -/
def array (n : Nat) (junk : List Nat) : List Nat := (junk ++ List.replicate n 0).take n

/-- Result of one `readline` call. -/
structure Line where
  /-- The return value. -/
  numchars : Nat
  /-- The buffer after the call. -/
  buffer : List Nat
  /-- The bytes of the socket that are still unread. -/
  input : List Nat

/-- Modelled from the spec: `readline` is declared in `misce.hpp`, which is not
among the sources. It reads one byte at a time until a line terminator (CR
optionally followed by LF, or bare LF) is found, the buffer capacity is
reached, or the peer has closed (no byte left). As its callers compare the
buffer with the C string "\n", the terminator is stored as a single LF. The
value is the stored line and the unread rest; `room` is the number of bytes
that may still be stored. -/
def readline_bytes : Nat → List Nat → List Nat × List Nat
  | 0, input => ([], input)
  | _ + 1, [] => ([], [])
  | room + 1, c :: input =>
    if c = LF then ([LF], input)
    else if c = CR then
      ([LF], match input with
        | [] => []
        | d :: rest => if d = LF then rest else d :: rest)
    else ((c :: (readline_bytes room input).1), (readline_bytes room input).2)

/-- Modelled from the spec: `readline(fd, buffer, size)` of `misce.hpp` (see
`readline_bytes`): at most `size - 1` bytes are stored, followed by NUL, and
the number of stored bytes is returned (0 when the peer has closed). -/
def readline (input buffer : List Nat) (size : Nat) : Line :=
  { numchars := (readline_bytes (size - 1) input).1.length
    buffer := store ((readline_bytes (size - 1) input).1 ++ [NUL]) buffer
    input := (readline_bytes (size - 1) input).2 }

/-! ## main.cpp: static content -/

/-- The function `make_headers`. -/
def make_headers : List Nat :=
  str "HTTP/1.0 200 OK\r\n" ++ str "Server: tinyhttpd/0.0.1\r\n"

/-- A `std::ifstream` opened on a file: the bytes not yet extracted, whether
`good()` holds, and `gcount()`. -/
structure Ifstream where
  rest : List Nat
  good : Bool
  gcount : Nat

/-- The call `ifs.read(buffer, n)` on a good stream: extracts `n` bytes, or all
that are left, in which case `eofbit` and `failbit` are set. -/
def Ifstream.read (ifs : Ifstream) (buffer : List Nat) (n : Nat) : Ifstream × List Nat :=
  ({ rest := ifs.rest.drop n, good := decide (n ≤ ifs.rest.length),
     gcount := (ifs.rest.take n).length },
   store (ifs.rest.take n) buffer)

/-- The loop
`while ((ifs.good()) && (read_size < sizeof(buffer))) { ifs.read(buffer, sizeof(buffer)); read_size += ifs.gcount(); }`
of `get_content`; `read_size` is an `unsigned int`. -/
def get_content_loop : Nat → Ifstream → List Nat → Nat → Except Stop (Ifstream × List Nat × Nat)
  | fuel, ifs, buffer, read_size =>
    if ifs.good && decide (read_size < 8192) then
      match fuel with
      | 0 => .error .outOfFuel
      | fuel + 1 =>
        get_content_loop fuel (ifs.read buffer 8192).1 (ifs.read buffer 8192).2
          ((read_size + (ifs.read buffer 8192).1.gcount) % 2 ^ 32)
    else .ok (ifs, buffer, read_size)

/-- The function `get_content`: return value and system calls. -/
def get_content (env : Env) (fuel : Nat) (webpath : List Nat) : Except Stop (Int × List Effect) :=
  match env.ifstream_open webpath with
  | some content =>
    match get_content_loop fuel { rest := content, good := true, gcount := 0 }
        (array 8192 env.junk_content) 0 with
    | .error e => .error e
    | .ok (ifs, buffer, read_size) =>
      .ok (0, [Effect.ifstream_open webpath,
        Effect.send (make_headers ++ str "Content-Type: text/html\r\n"
          ++ (str "Content-Length: " ++ to_string read_size ++ str "\r\n\r\n")),
        Effect.send (buffer.take ifs.gcount),
        Effect.ifstream_close])
  | none => .ok (not_found.length, [Effect.ifstream_open webpath, Effect.send not_found])

/-! ## main.cpp: CGI -/

/-- Modelled from the spec: `scnprintf` is declared in `misce.hpp`, which is not
among the sources; the spec only says that the key/value pair is exposed to
the child. It is taken as bounded formatting: the formatted text cut to
`size - 1` bytes. -/
def scnprintf (size : Nat) (text : List Nat) : List Nat := text.take (size - 1)

/-- Text printed for `content_len` by the conversion `%d`: the low 32 bits read
as a signed `int`. -/
def format_d (content_len : Nat) : List Nat :=
  if content_len % 2 ^ 32 < 2 ^ 31 then to_string (content_len % 2 ^ 32)
  else 45 :: to_string (2 ^ 32 - content_len % 2 ^ 32)

/-- The branch `pid == 0` of `exec_cgi`, up to `execl`; when `execl` returns
the child exits with status 0. -/
def exec_cgi_child (webpath method args : List Nat) (content_len : Nat) : List ChildEffect :=
  [ChildEffect.dup2 PipeEnd.p2cgi_read 0,
   ChildEffect.dup2 PipeEnd.cgi2p_write 1,
   ChildEffect.close PipeEnd.p2cgi_write,
   ChildEffect.close PipeEnd.cgi2p_read,
   ChildEffect.putenv (scnprintf 32 (str "REQUEST_METHOD=" ++ cstr method)),
   (if strcasecmp0 method (str "GET") then
      ChildEffect.putenv (scnprintf 255 (str "QUERY_STRING=" ++ cstr args))
    else
      ChildEffect.putenv (scnprintf 32 (str "CONTENT_LENGTH=" ++ format_d content_len))),
   ChildEffect.execl webpath]

/-- The loop `do { numchars = readline(fd, buffer, sizeof(buffer)); } while ((numchars > 0) && (0 != strcmp("\n", buffer)));`
of `exec_cgi` (method "GET"): the buffer and the unread input afterwards. -/
def drain_get : Nat → List Nat → List Nat → Except Stop (List Nat × List Nat)
  | 0, _, _ => .error .outOfFuel
  | fuel + 1, buffer, input =>
    if decide (0 < (readline input buffer 8192).numchars)
        && !strcmp0 (str "\n") (readline input buffer 8192).buffer then
      drain_get fuel (readline input buffer 8192).buffer (readline input buffer 8192).input
    else .ok ((readline input buffer 8192).buffer, (readline input buffer 8192).input)

/-- The buffer after `numchars = readline(fd, buffer, sizeof(buffer)); buffer[15] = '\0';`. -/
def cut15 (input buffer : List Nat) : List Nat := (readline input buffer 8192).buffer.set 15 NUL

/-- The value of `content_len` after
`if (strncasecmp("Content-Length:", buffer, 15) == 0) { content_len = strtoul(buffer, nullptr, 10); }`. -/
def capture (buffer : List Nat) (content_len : Nat) : Nat :=
  if strncasecmp0 (str "Content-Length:") buffer 15 then strtoul buffer else content_len

/-- The loop
`do { numchars = readline(...); buffer[15] = '\0'; if (strncasecmp("Content-Length:", buffer, 15) == 0) { content_len = strtoul(buffer, nullptr, 10); } } while ((numchars > 0) && (0 != strcmp("\n", buffer)));`
of `exec_cgi` (any other method): buffer, unread input and `content_len` afterwards. -/
def drain_post : Nat → List Nat → List Nat → Nat → Except Stop (List Nat × List Nat × Nat)
  | 0, _, _, _ => .error .outOfFuel
  | fuel + 1, buffer, input, content_len =>
    if decide (0 < (readline input buffer 8192).numchars)
        && !strcmp0 (str "\n") (cut15 input buffer) then
      drain_post fuel (cut15 input buffer) (readline input buffer 8192).input
        (capture (cut15 input buffer) content_len)
    else .ok (cut15 input buffer, (readline input buffer 8192).input,
      capture (cut15 input buffer) content_len)

/-- The loop
`do { long var = recv(fd, &buffer, sizeof(buffer), 0); if (var != -1) { read_size += var; } else { break; } } while (read_size < content_len);`
of `exec_cgi`. `recv` hands over the unread bytes, at most `sizeof(buffer)` of
them, and 0 bytes once the peer has closed; it does not fail. -/
def recv_body : Nat → List Nat → List Nat → Nat → Nat → Except Stop (List Nat × List Nat × Nat)
  | 0, _, _, _, _ => .error .outOfFuel
  | fuel + 1, buffer, input, read_size, content_len =>
    if (read_size + (input.take 8192).length) % 2 ^ 32 < content_len then
      recv_body fuel (store (input.take 8192) buffer) (input.drop 8192)
        ((read_size + (input.take 8192).length) % 2 ^ 32) content_len
    else .ok (store (input.take 8192) buffer, input.drop 8192,
      (read_size + (input.take 8192).length) % 2 ^ 32)

/-- The loop
`do { var = read(pipe_cgi2p[0], buffer, sizeof(buffer)); if (var > 0) { read_size += var; } } while (var > 0);`
of `exec_cgi`, over the results of the successive reads (each at most
`sizeof(buffer)` bytes): buffer and `read_size` afterwards. -/
def read_cgi : List (List Nat) → List Nat → Nat → List Nat × Nat
  | [], buffer, read_size => (buffer, read_size)
  | chunk :: more, buffer, read_size =>
    if 0 < (chunk.take 8192).length then
      read_cgi more (store (chunk.take 8192) buffer)
        ((read_size + (chunk.take 8192).length) % 2 ^ 32)
    else (buffer, read_size)

/-- The branch `pid > 0` of `exec_cgi` from `read_size = 0;` (line 586) on:
the relay of the child's output and the clean-up. -/
def exec_cgi_relay (env : Env) (buffer : List Nat) : Except Stop (Int × List Effect) :=
  if (read_cgi env.cgi_output buffer 0).2 ≤ 8192 then
    .ok (env.cgi_exit_status,
      [Effect.send make_headers,
       Effect.send ((read_cgi env.cgi_output buffer 0).1.take (read_cgi env.cgi_output buffer 0).2),
       Effect.close PipeEnd.p2cgi_write,
       Effect.close PipeEnd.cgi2p_read,
       Effect.waitpid])
  else .error .bufferOverread

/-- The function `exec_cgi` from `pipe(pipe_p2cgi)` (line 528) on. -/
def exec_cgi_run (env : Env) (fuel : Nat) (webpath method args buffer input : List Nat)
    (content_len : Nat) : Except Stop (Int × List Effect) :=
  if !env.pipe_p2cgi_ok then
    .ok (internal_server_error.length, [Effect.pipe_p2cgi, Effect.send internal_server_error])
  else if !env.pipe_cgi2p_ok then
    .ok (internal_server_error.length,
      [Effect.pipe_p2cgi, Effect.pipe_cgi2p, Effect.send internal_server_error])
  else if !env.fork_ok then
    .ok (internal_server_error.length,
      [Effect.pipe_p2cgi, Effect.pipe_cgi2p, Effect.fork_failed,
       Effect.send internal_server_error])
  else
    let opened := [Effect.pipe_p2cgi, Effect.pipe_cgi2p,
      Effect.fork (exec_cgi_child webpath method args content_len),
      Effect.close PipeEnd.p2cgi_read, Effect.close PipeEnd.cgi2p_write]
    if strcasecmp0 method (str "POST") then
      match recv_body fuel buffer input 0 content_len with
      | .error e => .error e
      | .ok (buffer, _, read_size) =>
        if read_size ≤ 8192 then
          match exec_cgi_relay env buffer with
          | .error e => .error e
          | .ok (status, relay) =>
            .ok (status, opened
              ++ [Effect.write PipeEnd.p2cgi_write (buffer.take read_size)] ++ relay)
        else .error .bufferOverread
    else
      match exec_cgi_relay env buffer with
      | .error e => .error e
      | .ok (status, relay) => .ok (status, opened ++ relay)

/-- The function `exec_cgi`: return value and system calls; `input` is what
the client has sent and the server has not read yet. -/
def exec_cgi (env : Env) (fuel : Nat) (webpath method args input : List Nat) :
    Except Stop (Int × List Effect) :=
  if strcmp0 method (str "GET") then
    match drain_get fuel (array 8192 env.junk_cgi) input with
    | .error e => .error e
    | .ok (buffer, input) => exec_cgi_run env fuel webpath method args buffer input 0
  else
    match drain_post fuel (array 8192 env.junk_cgi) input 0 with
    | .error e => .error e
    | .ok (buffer, input, content_len) =>
      if content_len = 0 then .ok (bad_request.length, [Effect.send bad_request])
      else exec_cgi_run env fuel webpath method args buffer input content_len

/-! ## main.cpp: the request router -/

/-- The loop
`while ((!isspace(buffer[i_buf])) && (i_buf < sizeof(buffer))) { method[index] = buffer[i_buf]; ++i_buf; ++index; }`
of `do_session`. The first argument is `buffer` from `i_buf` on (empty when
`i_buf = sizeof(buffer)`), the second the bytes written to `method` so far
(`index` is their number). The value is `method` and the rest of `buffer`. -/
def copy_method : List Nat → List Nat → Except Stop (List Nat × List Nat)
  | [], _ => .error .lineOverread
  | c :: rest, method =>
    if isspace c then .ok (method, c :: rest)
    else if method.length < 32 then copy_method rest (method ++ [c])
    else .error .methodOverflow

/-- The loop `while ((isspace(buffer[i_buf])) && (i_buf < sizeof(buffer))) { ++i_buf; }`
of `do_session`, on `buffer` from `i_buf` on. -/
def skip_space : List Nat → Except Stop (List Nat)
  | [] => .error .lineOverread
  | c :: rest => if isspace c then skip_space rest else .ok (c :: rest)

/-- The loop
`while ((!isspace(buffer[i_buf])) && (i_buf < sizeof(buffer)) && (index < sizeof(url_buf))) { url_buf[index] = buffer[i_buf]; ++index; ++i_buf; }`
of `do_session`, on `buffer` from `i_buf` on; the second argument is what has
been written to `url_buf` so far. -/
def copy_url : List Nat → List Nat → Except Stop (List Nat)
  | [], _ => .error .lineOverread
  | c :: rest, url_buf =>
    if isspace c then .ok url_buf
    else if url_buf.length < 255 then copy_url rest (url_buf ++ [c])
    else .ok url_buf

/-- The loop
`while ((numchars > 0) && (strcmp(buffer, "\n") != 0)) { numchars = readline(fd, buffer, sizeof(buffer)); }`
of `do_session`: the unread input afterwards. -/
def drain_request : Nat → Nat → List Nat → List Nat → Except Stop (List Nat)
  | fuel, numchars, buffer, input =>
    if decide (0 < numchars) && !strcmp0 buffer (str "\n") then
      match fuel with
      | 0 => .error .outOfFuel
      | fuel + 1 =>
        drain_request fuel (readline input buffer 1024).numchars
          (readline input buffer 1024).buffer (readline input buffer 1024).input
    else .ok input

/-- The mask `S_IFMT` of `<sys/stat.h>`. -/
def S_IFMT : Nat := 0o170000

/-- The file type `S_IFDIR` of `<sys/stat.h>`. -/
def S_IFDIR : Nat := 0o040000

/-- The mask `S_IXGRP | S_IXUSR | S_IXOTH` of `<sys/stat.h>`. -/
def S_IXANY : Nat := 0o111

/-- The function `do_session` from `std::string webpath = httpConfig.getWebRoot();`
(line 448) on; `url` and `query_string` are the strings after the split at `?`. -/
def do_session_resolve (env : Env) (fuel : Nat) (numchars : Nat)
    (buffer method url query_string input : List Nat) (is_cgi : Bool) :
    Except Stop (Int × List Effect) :=
  match (env.webRoot ++ url).getLast? with
  | none => .error .emptyWebpath
  | some last =>
    let webpath := if last = 47 then env.webRoot ++ url ++ str "index.html" else env.webRoot ++ url
    match env.stat64 webpath with
    | none =>
      match drain_request fuel numchars buffer input with
      | .error e => .error e
      | .ok _ => .ok (not_found.length, [Effect.stat64 webpath, Effect.send not_found])
    | some st_mode =>
      let target := if st_mode &&& S_IFMT = S_IFDIR then webpath ++ str "/index.html" else webpath
      if is_cgi || decide (st_mode &&& S_IXANY ≠ 0) then
        match exec_cgi env fuel target method query_string input with
        | .error e => .error e
        | .ok (status, trace) => .ok (status, Effect.stat64 webpath :: trace)
      else
        match get_content env fuel target with
        | .error e => .error e
        | .ok (status, trace) => .ok (status, Effect.stat64 webpath :: trace)

/-- The function `do_session` from `//skip space` (line 422) on, for a
`method` that is GET or POST; `rest` is `buffer` from `i_buf` on. -/
def do_session_route (env : Env) (fuel : Nat) (numchars : Nat)
    (buffer method rest input : List Nat) : Except Stop (Int × List Effect) :=
  match skip_space rest with
  | .error e => .error e
  | .ok rest =>
    match copy_url rest [] with
    | .error e => .error e
    | .ok url_buf =>
      if url_buf.length < 255 then
        if strcasecmp0 method (str "GET") && (cstr url_buf).contains 63 then
          do_session_resolve env fuel numchars buffer method
            ((cstr url_buf).takeWhile (fun c => c != 63))
            ((cstr url_buf).dropWhile (fun c => c != 63)) input true
        else
          do_session_resolve env fuel numchars buffer method (cstr url_buf) [] input
            (strcasecmp0 method (str "POST"))
      else .error .urlOverflow

/-- The function `do_session`: return value and system calls; `input` is what
the client has sent and the server has not read yet. -/
def do_session (env : Env) (fuel : Nat) (input : List Nat) : Except Stop (Int × List Effect) :=
  if (readline input (array 1024 env.junk_session) 1024).numchars = 0 then .ok (-1, [])
  else
    match copy_method (readline input (array 1024 env.junk_session) 1024).buffer [] with
    | .error e => .error e
    | .ok (method, rest) =>
      if method.length < 32 then
        if !strcasecmp0 method (str "GET") && !strcasecmp0 method (str "POST") then
          .ok (not_implemented.length, [Effect.send not_implemented])
        else
          do_session_route env fuel (readline input (array 1024 env.junk_session) 1024).numchars
            (readline input (array 1024 env.junk_session) 1024).buffer method rest
            (readline input (array 1024 env.junk_session) 1024).input
      else .error .methodOverflow

/-! ## main.cpp: the event handlers -/

/-- The function a `callback` field points to. -/
inductive callback_fun where
  | accept_connect
  | session_handler
  deriving DecidableEq, Repr

/-- The struct `EventData`. -/
structure EventData where
  ep_fd : Int
  sock_fd : Int
  family : Int
  callback : callback_fun
  deriving DecidableEq, Repr

/-- The fields of `epoll_event` that the handlers read: the `uint32_t` mask
`events` and `data.ptr`, the address of an `EventData`. -/
structure epoll_event where
  events : Nat
  ptr : Nat
  deriving DecidableEq, Repr

/-- The bit `EPOLLIN` of `<sys/epoll.h>`. -/
def EPOLLIN : Nat := 0x001

/-- The bit `EPOLLERR` of `<sys/epoll.h>`. -/
def EPOLLERR : Nat := 0x008

/-- The bit `EPOLLHUP` of `<sys/epoll.h>`. -/
def EPOLLHUP : Nat := 0x010

/-- The bit `EPOLLRDHUP` of `<sys/epoll.h>`. -/
def EPOLLRDHUP : Nat := 0x2000

/-- The bit `EPOLLET` of `<sys/epoll.h>`. -/
def EPOLLET : Nat := 0x80000000

/-- Calls made by the event handlers, in order. -/
inductive SysCall where
  | accept (fd : Int)
  | new_EventData (ptr : Nat)
  | delete_EventData (ptr : Nat)
  | epoll_ctl_add (ep_fd fd : Int) (events ptr : Nat)
  | epoll_ctl_del (ep_fd fd : Int)
  | shutdown (fd : Int)
  | close (fd : Int)
  | log
  | session (fd : Int) (result : Int) (trace : List Effect)
  deriving DecidableEq, Repr

/-- The function `handle_error`: closes `fd` unless it is -1, then writes to
`std::cerr`. -/
def handle_error (fd : Int) : List SysCall :=
  if fd ≠ -1 then [SysCall.close fd, SysCall.log] else [SysCall.log]

/-- The state the handlers work on: the live `EventData` objects by address,
the registry `data_set` of addresses, and the calls made so far. -/
structure Server where
  heap : Nat → Option EventData
  data_set : Finset Nat
  calls : List SysCall

/-- The function `session_handler`. `epoll_ctl_ok` is whether the
`EPOLL_CTL_DEL` call succeeds; `env`, `fuel` and `input` are handed to
`do_session`. -/
def session_handler (env : Env) (fuel : Nat) (input : List Nat) (epoll_ctl_ok : Bool)
    (event : epoll_event) (s : Server) : Except Stop Server :=
  match s.heap event.ptr with
  | none => .error .danglingPointer
  | some event_data =>
    if event.events &&& (EPOLLHUP ||| EPOLLRDHUP) ≠ 0 then
      if !epoll_ctl_ok then
        .ok { s with calls := s.calls
                ++ [SysCall.epoll_ctl_del event_data.ep_fd event_data.sock_fd]
                ++ handle_error (-1) }
      else if event.ptr ∈ s.data_set then
        .ok { heap := fun p => if p = event.ptr then none else s.heap p
              data_set := s.data_set.erase event.ptr
              calls := s.calls
                ++ [SysCall.epoll_ctl_del event_data.ep_fd event_data.sock_fd,
                    SysCall.shutdown event_data.sock_fd,
                    SysCall.close event_data.sock_fd,
                    SysCall.delete_EventData event.ptr] }
      else .error .eraseEnd
    else if event.events &&& EPOLLERR ≠ 0 then
      .ok { s with calls := s.calls ++ handle_error (-1) }
    else if event.events &&& EPOLLIN ≠ 0 then
      match do_session env fuel input with
      | .error e => .error e
      | .ok (result, trace) =>
        .ok { s with calls := s.calls ++ [SysCall.session event_data.sock_fd result trace] }
    else .ok { s with calls := s.calls ++ [SysCall.log] }

/-- The function `accept_connect` (its two address-family branches differ in
the address type only). `client_fd` is the value of `accept` (-1 on failure),
`fresh` the address returned by `new EventData()`, `epoll_ctl_ok` whether the
`EPOLL_CTL_ADD` call succeeds. -/
def accept_connect (client_fd : Int) (fresh : Nat) (epoll_ctl_ok : Bool)
    (event : epoll_event) (s : Server) : Except Stop Server :=
  match s.heap event.ptr with
  | none => .error .danglingPointer
  | some event_data =>
    if event.events &&& EPOLLIN ≠ 0 then
      let accepted := s.calls ++ [SysCall.accept event_data.sock_fd]
        ++ (if client_fd = -1 then handle_error client_fd else [])
        ++ [SysCall.new_EventData fresh]
        ++ [SysCall.epoll_ctl_add event_data.ep_fd client_fd
              (EPOLLIN ||| EPOLLRDHUP ||| EPOLLHUP ||| EPOLLET) fresh]
      if !epoll_ctl_ok then
        .ok { s with calls := accepted ++ handle_error client_fd
                ++ [SysCall.delete_EventData fresh] }
      else
        .ok { heap := fun p =>
                if p = fresh then
                  some { ep_fd := event_data.ep_fd, sock_fd := client_fd,
                         family := event_data.family,
                         callback := callback_fun.session_handler }
                else s.heap p
              data_set := insert fresh s.data_set
              calls := accepted }
    else .ok { s with calls := s.calls ++ [SysCall.log] }

/-! ## Notions used to state the properties -/

/-- The file type `S_IFREG` of `<sys/stat.h>`. -/
def S_IFREG : Nat := 0o100000

/-- The path that `do_session` takes from the second token `url` of a request
line: the C string in `url_buf` (the token up to its first NUL, if it has
one), and for GET only the bytes of it before the first `?`. -/
def request_path (method url : List Nat) : List Nat :=
  if strcasecmp0 method (str "GET") then (cstr url).takeWhile (fun c => c != 63) else cstr url

/-- The resolved path: web root followed by the path, with "index.html"
appended after a trailing `/`. -/
def webpath_for (env : Env) (path : List Nat) : List Nat :=
  if (env.webRoot ++ path).getLast? = some 47 then env.webRoot ++ path ++ str "index.html"
  else env.webRoot ++ path

/-- A request line `method sep url c ...`: the first token `method`, free of
white space and shorter than the 32 bytes of the array `method`, is GET or
POST by the test of `do_session` (`strcasecmp`); `sep` is a non-empty run of
white space bytes other than CR and LF (which would end the line); the second
token `url` is non-empty, free of white space and shorter than the 255 bytes
of `url_buf`; the white space byte `c` follows it; and the three parts fit
the 1024-byte line buffer. -/
structure RequestLine (method sep url : List Nat) (c : Nat) : Prop where
  method_ok : strcasecmp0 method (str "GET") = true ∨ strcasecmp0 method (str "POST") = true
  method_tok : ∀ x ∈ method, isspace x = false
  method_len : method.length < 32
  sep_ne : sep ≠ []
  sep_ok : ∀ x ∈ sep, isspace x = true ∧ x ≠ LF ∧ x ≠ CR
  url_ne : url ≠ []
  url_tok : ∀ x ∈ url, isspace x = false
  url_len : url.length < 255
  term_ok : isspace c = true
  fits : method.length + sep.length + url.length < 1023

/-- The header lines of a request as `exec_cgi` reads them: the lines that
successive `readline` calls with an 8192-byte buffer give, up to the empty
line or the end of the input. -/
def header_lines : Nat → List Nat → List (List Nat)
  | 0, _ => []
  | fuel + 1, input =>
    if (readline_bytes 8191 input).1 = [] ∨ (readline_bytes 8191 input).1 = [LF] then []
    else (readline_bytes 8191 input).1 :: header_lines fuel (readline_bytes 8191 input).2

/-- The bytes handed to `send`, in order: what the client receives. -/
def sent : List Effect → List Nat
  | [] => []
  | Effect.send bytes :: rest => bytes ++ sent rest
  | _ :: rest => sent rest

/-- Header lines, each followed by CR LF. -/
def header_block : List (List Nat) → List Nat
  | [] => []
  | h :: hs => h ++ str "\r\n" ++ header_block hs

/-- The wire format of a response: the status line `HTTP/1.0 <code> <reason>`
with a decimal code, the line `Server: tinyhttpd/0.0.1`, the content headers
`headers` (non-empty lines), an empty line, then `body`; every line ends in
CR LF and holds no other CR or LF. -/
def WireFormat (response : List Nat) (headers : List (List Nat)) (body : List Nat) : Prop :=
  ∃ code reason : List Nat,
    code ≠ [] ∧ (∀ d ∈ code, isdigit d = true) ∧ (∀ x ∈ reason, x ≠ CR ∧ x ≠ LF) ∧
    (∀ h ∈ headers, h ≠ [] ∧ ∀ x ∈ h, x ≠ CR ∧ x ≠ LF) ∧
    response = str "HTTP/1.0 " ++ code ++ 32 :: reason ++ str "\r\n"
      ++ str "Server: tinyhttpd/0.0.1\r\n" ++ header_block headers ++ str "\r\n" ++ body

/-! ## A sample site -/

/-- A 50-byte page. -/
def page50 : List Nat := str "<html><body><h1>tinyhttpd works</h1></body></html>"

/-- A web root `/www` holding the regular file `index.html` (mode 0644, the
50 bytes of `page50`) and the executable `cgi` (mode 0755), whose child writes
"ab" and then "c"; `buffer[8192]` of `exec_cgi` initially holds "stale". -/
def site : Env :=
  { webRoot := str "/www"
    stat64 := fun path =>
      if path = str "/www/index.html" then some 0o100644
      else if path = str "/www/cgi" then some 0o100755
      else none
    ifstream_open := fun path => if path = str "/www/index.html" then some page50 else none
    pipe_p2cgi_ok := true
    pipe_cgi2p_ok := true
    fork_ok := true
    cgi_output := [str "ab", str "c"]
    cgi_exit_status := 0
    junk_session := []
    junk_cgi := str "stale"
    junk_content := [] }

/-- The sample site with a child that writes "hi" in one piece. -/
def site_hi : Env := { site with cgi_output := [str "hi"] }

/-- The sample site with a child that writes nothing, as when `execl` fails
on a file that is not executable. -/
def site_quiet : Env := { site with cgi_output := [] }

/-- The listener context of the sample server: epoll handle 3, listening
socket 4, family `AF_INET` (2). -/
def listener : EventData :=
  { ep_fd := 3, sock_fd := 4, family := 2, callback := callback_fun.accept_connect }

/-- A server whose only live context is the listener, at address 1, with an
empty registry. -/
def idle_server : Server :=
  { heap := fun p => if p = 1 then some listener else none
    data_set := ∅
    calls := [] }

/-- The context `accept_connect` creates for the client socket 7. -/
def client : EventData :=
  { ep_fd := 3, sock_fd := 7, family := 2, callback := callback_fun.session_handler }

/-- The sample server after `accept_connect` has accepted socket 7 into a
context at address 2. -/
def accepted_server : Server :=
  { heap := fun p => if p = 2 then some client else idle_server.heap p
    data_set := insert 2 idle_server.data_set
    calls := [SysCall.accept 4, SysCall.new_EventData 2,
      SysCall.epoll_ctl_add 3 7 (EPOLLIN ||| EPOLLRDHUP ||| EPOLLHUP ||| EPOLLET) 2] }

/-! ## Lemmas -/

theorem take_store (data buffer : List Nat) : (store data buffer).take data.length = data := by
  simp [store]

theorem get_content_loop_once (fuel : Nat) (content buffer : List Nat) :
    get_content_loop (fuel + 1) { rest := content, good := true, gcount := 0 } buffer 0
      = .ok ({ rest := content.drop 8192, good := decide (8192 ≤ content.length),
               gcount := (content.take 8192).length },
             store (content.take 8192) buffer, (content.take 8192).length) := by
  have hlen : (content.take 8192).length ≤ 8192 := by simp
  have hmod : (content.take 8192).length % 2 ^ 32 = (content.take 8192).length :=
    Nat.mod_eq_of_lt (by omega)
  rw [get_content_loop]
  simp only [Bool.true_and, Ifstream.read, Nat.zero_add, hmod]
  rw [if_pos (by decide)]
  rw [get_content_loop.eq_def]
  by_cases h : 8192 ≤ content.length
  · have : (content.take 8192).length = 8192 := by simp [h]
    simp [h, this]
  · simp [h]

theorem get_content_open (env : Env) (fuel : Nat) (webpath content : List Nat)
    (hopen : env.ifstream_open webpath = some content) (hfuel : 0 < fuel) :
    get_content env fuel webpath
      = .ok (0, [Effect.ifstream_open webpath,
          Effect.send (make_headers ++ str "Content-Type: text/html\r\n"
            ++ (str "Content-Length: " ++ to_string (content.take 8192).length ++ str "\r\n\r\n")),
          Effect.send (content.take 8192),
          Effect.ifstream_close]) := by
  obtain ⟨f, rfl⟩ : ∃ f, fuel = f + 1 := ⟨fuel - 1, by omega⟩
  simp only [get_content, hopen, get_content_loop_once, take_store]

theorem readline_bytes_le (room : Nat) (input : List Nat) :
    (readline_bytes room input).2.length ≤ input.length := by
  induction input generalizing room with
  | nil => cases room <;> simp [readline_bytes]
  | cons c input ih =>
    cases room with
    | zero => simp [readline_bytes]
    | succ room =>
      simp only [readline_bytes]
      split
      · simp
      · split
        · cases input with
          | nil => simp
          | cons d rest =>
            dsimp only
            split <;> simp; omega
        · have := ih room
          simp only [List.length_cons]
          omega

theorem readline_bytes_lt (room : Nat) (input : List Nat)
    (h : 0 < (readline_bytes room input).1.length) :
    (readline_bytes room input).2.length < input.length := by
  cases input with
  | nil => cases room <;> simp [readline_bytes] at h
  | cons c input =>
    cases room with
    | zero => simp [readline_bytes] at h
    | succ room =>
      simp only [readline_bytes]
      split
      · simp
      · split
        · cases input with
          | nil => simp
          | cons d rest =>
            dsimp only
            split <;> simp; omega
        · have := readline_bytes_le room input
          simp only [List.length_cons]
          omega

theorem readline_input_lt (input buffer : List Nat) (size : Nat)
    (h : 0 < (readline input buffer size).numchars) :
    (readline input buffer size).input.length < input.length :=
  readline_bytes_lt (size - 1) input h

theorem tolower_eq_c (c : Nat) (h : tolower c = 99) : c = 99 ∨ c = 67 := by
  unfold tolower at h
  split at h <;> omega

theorem strtoul_content_length (buffer : List Nat)
    (h : strncasecmp0 (str "Content-Length:") buffer 15 = true) : strtoul buffer = 0 := by
  have hL : ((cstr (str "Content-Length:")).take 15).map tolower = str "content-length:" := by
    decide
  unfold strncasecmp0 at h
  rw [hL] at h
  cases hcb : cstr buffer with
  | nil => rw [hcb] at h; exact absurd h (by decide)
  | cons c0 t =>
    rw [hcb] at h
    have h0 : tolower c0 = 99 := by
      have := congrArg List.head? (eq_of_beq h)
      simpa [str] using this.symm
    rcases tolower_eq_c c0 h0 with rfl | rfl <;>
      simp [strtoul, hcb, isspace, isdigit]

theorem capture_zero (buffer : List Nat) : capture buffer 0 = 0 := by
  unfold capture
  split
  · next h => exact strtoul_content_length buffer h
  · rfl

theorem drain_post_zero (fuel : Nat) (buffer input : List Nat) (hfuel : input.length < fuel) :
    ∃ b i, drain_post fuel buffer input 0 = .ok (b, i, 0) := by
  induction fuel generalizing buffer input with
  | zero => omega
  | succ fuel ih =>
    rw [drain_post]
    simp only [capture_zero]
    split
    · next hc =>
      simp only [Bool.and_eq_true, decide_eq_true_eq] at hc
      have := readline_input_lt input buffer 8192 hc.1
      exact ih _ _ (by omega)
    · exact ⟨_, _, rfl⟩

theorem not_get_of_post (method : List Nat) (h : strcasecmp0 method (str "POST") = true) :
    strcmp0 method (str "GET") = false := by
  unfold strcasecmp0 at h
  unfold strcmp0
  by_contra hc
  simp only [Bool.not_eq_false, beq_iff_eq] at hc
  rw [hc] at h
  revert h
  decide

theorem exec_cgi_post_bad_request (env : Env) (fuel : Nat) (webpath method args input : List Nat)
    (hmethod : strcmp0 method (str "GET") = false) (hfuel : input.length < fuel) :
    exec_cgi env fuel webpath method args input
      = .ok (bad_request.length, [Effect.send bad_request]) := by
  obtain ⟨b, i, h⟩ := drain_post_zero fuel (array 8192 env.junk_cgi) input hfuel
  simp [exec_cgi, hmethod, h]



theorem isspace_LF_CR (x : Nat) (h : isspace x = false) : x ≠ LF ∧ x ≠ CR := by
  constructor <;> rintro rfl <;> revert h <;> decide

theorem readline_bytes_line (room : Nat) (pre : List Nat) (c : Nat) (tail : List Nat)
    (hpre : ∀ x ∈ pre, x ≠ LF ∧ x ≠ CR) (hlen : pre.length < room) (hc : isspace c = true) :
    ∃ c1 X, isspace c1 = true ∧ (readline_bytes room (pre ++ c :: tail)).1 = pre ++ c1 :: X := by
  induction pre generalizing room with
  | nil =>
    obtain ⟨r, rfl⟩ : ∃ r, room = r + 1 := ⟨room - 1, by simp at hlen; omega⟩
    simp only [List.nil_append, readline_bytes]
    split
    · exact ⟨LF, [], by decide, rfl⟩
    · split
      · exact ⟨LF, [], by decide, rfl⟩
      · exact ⟨c, _, hc, rfl⟩
  | cons x pre ih =>
    obtain ⟨r, rfl⟩ : ∃ r, room = r + 1 := ⟨room - 1, by simp at hlen; omega⟩
    have hx := hpre x (by simp)
    obtain ⟨c1, X, h1, h2⟩ := ih r (fun y hy => hpre y (by simp [hy])) (by simpa using hlen)
    refine ⟨c1, X, h1, ?_⟩
    simp only [List.cons_append, readline_bytes, hx.1, hx.2, if_false, List.append_eq, h2]

theorem readline_line (pre : List Nat) (c : Nat) (tail buffer : List Nat)
    (hpre : ∀ x ∈ pre, x ≠ LF ∧ x ≠ CR) (hlen : pre.length < 1023) (hc : isspace c = true) :
    ∃ c1 X, isspace c1 = true
      ∧ (readline (pre ++ c :: tail) buffer 1024).buffer = pre ++ c1 :: X
      ∧ 0 < (readline (pre ++ c :: tail) buffer 1024).numchars := by
  obtain ⟨c1, X, h1, h2⟩ := readline_bytes_line 1023 pre c tail hpre hlen hc
  refine ⟨c1, X ++ [NUL] ++ buffer.drop ((pre ++ c1 :: X) ++ [NUL]).length, h1, ?_, ?_⟩
  · simp [readline, store, h2]
  · simp [readline, h2]

theorem copy_method_token (tok : List Nat) (c : Nat) (X acc : List Nat)
    (htok : ∀ x ∈ tok, isspace x = false) (hc : isspace c = true)
    (hlen : acc.length + tok.length ≤ 32) :
    copy_method (tok ++ c :: X) acc = .ok (acc ++ tok, c :: X) := by
  induction tok generalizing acc with
  | nil => simp [copy_method, hc]
  | cons x tok ih =>
    have hx : isspace x = false := htok x (by simp)
    have hl : acc.length < 32 := by simp at hlen; omega
    simp only [List.cons_append, copy_method, hx, hl, if_true, Bool.false_eq_true, if_false,
      List.append_eq]
    rw [ih (acc ++ [x]) (fun y hy => htok y (by simp [hy])) (by simp at hlen ⊢; omega)]
    simp

theorem copy_url_token (tok : List Nat) (c : Nat) (X acc : List Nat)
    (htok : ∀ x ∈ tok, isspace x = false) (hc : isspace c = true)
    (hlen : acc.length + tok.length ≤ 255) :
    copy_url (tok ++ c :: X) acc = .ok (acc ++ tok) := by
  induction tok generalizing acc with
  | nil => simp [copy_url, hc]
  | cons x tok ih =>
    have hx : isspace x = false := htok x (by simp)
    have hl : acc.length < 255 := by simp at hlen; omega
    simp only [List.cons_append, copy_url, hx, hl, if_true, Bool.false_eq_true, if_false,
      List.append_eq]
    rw [ih (acc ++ [x]) (fun y hy => htok y (by simp [hy])) (by simp at hlen ⊢; omega)]
    simp

theorem skip_space_run (sep tok Y : List Nat) (hsep : ∀ x ∈ sep, isspace x = true)
    (hne : tok ≠ []) (htok : ∀ x ∈ tok, isspace x = false) :
    skip_space (sep ++ (tok ++ Y)) = .ok (tok ++ Y) := by
  induction sep with
  | nil =>
    cases tok with
    | nil => exact absurd rfl hne
    | cons x tok =>
      have hx : isspace x = false := htok x (by simp)
      simp [skip_space, hx]
  | cons x sep ih =>
    have hx : isspace x = true := hsep x (by simp)
    simp only [List.cons_append, skip_space, hx, if_true]
    exact ih (fun y hy => hsep y (by simp [hy]))

theorem cstr_of_no_nul (l : List Nat) (h : ∀ x ∈ l, x ≠ NUL) : cstr l = l := by
  unfold cstr
  rw [List.takeWhile_eq_self_iff]
  intro x hx
  simpa using h x hx

theorem drain_request_ok (fuel numchars : Nat) (buffer input : List Nat)
    (h : 0 < numchars → input.length < fuel) :
    ∃ rest, drain_request fuel numchars buffer input = .ok rest := by
  induction fuel generalizing numchars buffer input with
  | zero =>
    rw [drain_request]
    split
    · next hc =>
      simp only [Bool.and_eq_true, decide_eq_true_eq] at hc
      exact absurd (h hc.1) (by omega)
    · exact ⟨_, rfl⟩
  | succ fuel ih =>
    rw [drain_request]
    split
    · next hc =>
      simp only [Bool.and_eq_true, decide_eq_true_eq] at hc
      apply ih
      intro hn
      have := readline_input_lt input buffer 1024 hn
      have := h hc.1
      omega
    · exact ⟨_, rfl⟩

theorem not_post_of_get (method : List Nat) (h : strcasecmp0 method (str "GET") = true) :
    strcasecmp0 method (str "POST") = false := by
  unfold strcasecmp0 at h ⊢
  rw [eq_of_beq h]
  decide

theorem do_session_parsed (env : Env) (fuel : Nat) (method sep url tail : List Nat) (c : Nat)
    (hreq : RequestLine method sep url c) :
    ∃ numchars buffer input,
      (0 < numchars → input.length < (method ++ sep ++ url ++ c :: tail).length) ∧
      do_session env fuel (method ++ sep ++ url ++ c :: tail)
        = if strcasecmp0 method (str "GET") && (cstr url).contains 63 then
            do_session_resolve env fuel numchars buffer method
              ((cstr url).takeWhile (fun c => c != 63))
              ((cstr url).dropWhile (fun c => c != 63)) input true
          else
            do_session_resolve env fuel numchars buffer method (cstr url) [] input
              (strcasecmp0 method (str "POST")) := by
  have hmsp := hreq.method_tok
  have hurlsp := hreq.url_tok
  have hsepsp : ∀ x ∈ sep, isspace x = true := fun x hx => (hreq.sep_ok x hx).1
  have hpre : ∀ x ∈ method ++ sep ++ url, x ≠ LF ∧ x ≠ CR := by
    intro x hx
    simp only [List.mem_append] at hx
    rcases hx with (hx | hx) | hx
    · exact isspace_LF_CR x (hmsp x hx)
    · exact (hreq.sep_ok x hx).2
    · exact isspace_LF_CR x (hurlsp x hx)
  have hprelen : (method ++ sep ++ url).length < 1023 := by
    have := hreq.fits
    simp only [List.length_append]
    omega
  obtain ⟨c1, X, hc1, hbuf, hnum⟩ :=
    readline_line (method ++ sep ++ url) c tail (array 1024 env.junk_session) hpre hprelen
      hreq.term_ok
  obtain ⟨s0, sep1, hsep⟩ : ∃ s0 sep1, sep = s0 :: sep1 := by
    cases hs : sep with
    | nil => exact absurd hs hreq.sep_ne
    | cons s0 sep1 => exact ⟨s0, sep1, rfl⟩
  refine ⟨(readline (method ++ sep ++ url ++ c :: tail) (array 1024 env.junk_session) 1024).numchars,
    (readline (method ++ sep ++ url ++ c :: tail) (array 1024 env.junk_session) 1024).buffer,
    (readline (method ++ sep ++ url ++ c :: tail) (array 1024 env.junk_session) 1024).input,
    fun h => ?_, ?_⟩
  · exact readline_input_lt (method ++ sep ++ url ++ c :: tail) (array 1024 env.junk_session) 1024 h
  · have hnum2 : (readline (method ++ sep ++ url ++ c :: tail) (array 1024 env.junk_session)
        1024).numchars ≠ 0 := by omega
    have hs0 : isspace s0 = true := hsepsp s0 (by simp [hsep])
    have hm32 := hreq.method_len
    have hcm := copy_method_token method s0 (sep1 ++ (url ++ c1 :: X)) [] hmsp hs0
      (by simp; omega)
    have hsk := skip_space_run sep url (c1 :: X) hsepsp hreq.url_ne hurlsp
    have hcu := copy_url_token url c1 X [] hurlsp hc1 (by simp; have := hreq.url_len; omega)
    have hsupp : (!strcasecmp0 method (str "GET") && !strcasecmp0 method (str "POST")) = false := by
      rcases hreq.method_ok with h | h <;> simp [h]
    have hassoc : method ++ sep ++ url ++ c1 :: X = method ++ s0 :: (sep1 ++ (url ++ c1 :: X)) := by
      simp [hsep]
    have hrest : s0 :: (sep1 ++ (url ++ c1 :: X)) = sep ++ (url ++ c1 :: X) := by
      simp [hsep]
    rw [do_session, if_neg hnum2]
    generalize (readline (method ++ sep ++ url ++ c :: tail) (array 1024 env.junk_session)
        1024).numchars = numchars at *
    generalize (readline (method ++ sep ++ url ++ c :: tail) (array 1024 env.junk_session)
        1024).input = input at *
    rw [hbuf, hassoc, hcm]
    simp only [List.nil_append, hm32, if_true, hsupp, Bool.false_eq_true, if_false]
    rw [do_session_route, hrest, hsk]
    simp only [hcu, List.nil_append, hreq.url_len, if_true]

theorem webpath_last (env : Env) (path : List Nat) (hne : env.webRoot ++ path ≠ []) :
    ∃ last, (env.webRoot ++ path).getLast? = some last
      ∧ (if last = 47 then env.webRoot ++ path ++ str "index.html" else env.webRoot ++ path)
          = webpath_for env path := by
  refine ⟨(env.webRoot ++ path).getLast hne, List.getLast?_eq_getLast _ hne, ?_⟩
  unfold webpath_for
  rw [List.getLast?_eq_getLast _ hne]
  simp

theorem do_session_resolve_not_found (env : Env) (fuel numchars : Nat)
    (buffer method path query input : List Nat) (is_cgi : Bool)
    (hroot : env.webRoot ++ path ≠ [])
    (hstat : env.stat64 (webpath_for env path) = none)
    (hfuel : 0 < numchars → input.length < fuel) :
    do_session_resolve env fuel numchars buffer method path query input is_cgi
      = .ok (not_found.length, [Effect.stat64 (webpath_for env path), Effect.send not_found]) := by
  obtain ⟨last, hlast, hwp⟩ := webpath_last env path hroot
  obtain ⟨rest, hdrain⟩ := drain_request_ok fuel numchars buffer input hfuel
  simp only [do_session_resolve, hlast, hwp, hstat, hdrain]

theorem do_session_resolve_static (env : Env) (fuel numchars st_mode : Nat)
    (buffer method path query input : List Nat) (hroot : env.webRoot ++ path ≠ [])
    (hstat : env.stat64 (webpath_for env path) = some st_mode)
    (hreg : st_mode &&& S_IFMT = S_IFREG) (hnox : st_mode &&& S_IXANY = 0) :
    do_session_resolve env fuel numchars buffer method path query input false
      = match get_content env fuel (webpath_for env path) with
        | .error e => .error e
        | .ok (status, trace) => .ok (status, Effect.stat64 (webpath_for env path) :: trace) := by
  obtain ⟨last, hlast, hwp⟩ := webpath_last env path hroot
  have hdir : ¬ (st_mode &&& S_IFMT = S_IFDIR) := by rw [hreg]; decide
  simp only [do_session_resolve, hlast, hwp, hstat, hnox, hdir, if_false, Bool.false_or,
    ne_eq, not_true_eq_false, decide_False, Bool.false_eq_true]

theorem digitChar_digit (d : Nat) (h : d < 10) :
    48 ≤ (Nat.digitChar d).toNat ∧ (Nat.digitChar d).toNat ≤ 57 := by
  interval_cases d <;> decide

theorem toDigitsCore_digit (fuel n : Nat) (ds : List Char)
    (hds : ∀ c ∈ ds, 48 ≤ c.toNat ∧ c.toNat ≤ 57) :
    ∀ c ∈ Nat.toDigitsCore 10 fuel n ds, 48 ≤ c.toNat ∧ c.toNat ≤ 57 := by
  induction fuel generalizing n ds with
  | zero => simpa [Nat.toDigitsCore] using hds
  | succ fuel ih =>
    have hd := digitChar_digit (n % 10) (Nat.mod_lt _ (by decide))
    have hcons : ∀ c ∈ Nat.digitChar (n % 10) :: ds, 48 ≤ c.toNat ∧ c.toNat ≤ 57 := by
      intro c hc
      rcases List.mem_cons.mp hc with rfl | hc
      · exact hd
      · exact hds c hc
    simp only [Nat.toDigitsCore]
    split
    · exact hcons
    · exact ih _ _ hcons

theorem to_string_digit (n : Nat) : ∀ x ∈ to_string n, 48 ≤ x ∧ x ≤ 57 := by
  intro x hx
  unfold to_string at hx
  obtain ⟨c, hc, rfl⟩ := List.mem_map.mp hx
  exact toDigitsCore_digit _ _ [] (by simp) c hc

theorem content_length_header (n : Nat) :
    str "Content-Length: " ++ to_string n ≠ []
      ∧ ∀ x ∈ str "Content-Length: " ++ to_string n, x ≠ CR ∧ x ≠ LF := by
  refine ⟨by simp [str], fun x hx => ?_⟩
  rcases List.mem_append.mp hx with h | h
  · have hlit : ∀ y ∈ str "Content-Length: ", y ≠ CR ∧ y ≠ LF := by decide
    exact hlit x h
  · have := to_string_digit n x h
    unfold CR LF
    omega

theorem header_block_ends (P : List Nat) (hs : List (List Nat)) :
    ∃ pre, P ++ str "\r\n" ++ header_block hs = pre ++ str "\r\n" := by
  induction hs generalizing P with
  | nil => exact ⟨P, by simp [header_block]⟩
  | cons h hs ih =>
    obtain ⟨pre, hpre⟩ := ih (P ++ str "\r\n" ++ h)
    exact ⟨pre, by rw [← hpre]; simp [header_block]⟩

theorem wireFormat_blank_line (response : List Nat) (headers : List (List Nat)) (body : List Nat)
    (h : WireFormat response headers body) : str "\r\n\r\n" <:+: response := by
  obtain ⟨code, reason, -, -, -, -, rfl⟩ := h
  obtain ⟨pre, hpre⟩ := header_block_ends (str "Server: tinyhttpd/0.0.1") headers
  have hs : str "Server: tinyhttpd/0.0.1\r\n" = str "Server: tinyhttpd/0.0.1" ++ str "\r\n" := by
    decide
  refine ⟨str "HTTP/1.0 " ++ code ++ 32 :: reason ++ str "\r\n" ++ pre, body, ?_⟩
  have h4 : str "\r\n\r\n" = str "\r\n" ++ str "\r\n" := by decide
  have key : str "Server: tinyhttpd/0.0.1\r\n" ++ header_block headers = pre ++ str "\r\n" := by
    rw [hs, hpre]
  calc str "HTTP/1.0 " ++ code ++ 32 :: reason ++ str "\r\n" ++ pre ++ str "\r\n\r\n" ++ body
      = str "HTTP/1.0 " ++ code ++ 32 :: reason ++ str "\r\n" ++ (pre ++ str "\r\n")
          ++ str "\r\n" ++ body := by rw [h4]; simp only [List.append_assoc]
    _ = str "HTTP/1.0 " ++ code ++ 32 :: reason ++ str "\r\n"
          ++ str "Server: tinyhttpd/0.0.1\r\n" ++ header_block headers ++ str "\r\n" ++ body := by
        rw [← key]; simp only [List.append_assoc]

set_option maxRecDepth 100000 in
theorem assemble_wire_format (status_code : HTTP_STATUS_CODE) :
    WireFormat (assemble status_code)
      [str "Content-Type: text/html; charset=utf8",
       str "Content-Length: " ++ to_string (http_body status_code).length]
      (http_body status_code) := by
  refine ⟨(HTTP_STATUS status_code).take 3, (HTTP_STATUS status_code).drop 4, ?_, ?_, ?_, ?_, ?_⟩ <;>
  cases status_code <;> decide

theorem get_content_wire_format (body : List Nat) :
    WireFormat
      (make_headers ++ str "Content-Type: text/html\r\n"
        ++ (str "Content-Length: " ++ to_string body.length ++ str "\r\n\r\n") ++ body)
      [str "Content-Type: text/html", str "Content-Length: " ++ to_string body.length] body := by
  refine ⟨str "200", str "OK", by decide, by decide, by decide, ?_, ?_⟩
  · intro h hh
    simp only [List.mem_cons, List.mem_singleton, List.not_mem_nil, or_false] at hh
    rcases hh with rfl | rfl
    · decide
    · exact content_length_header body.length
  · have h1 : make_headers = str "HTTP/1.0 " ++ str "200" ++ 32 :: str "OK" ++ str "\r\n"
        ++ str "Server: tinyhttpd/0.0.1\r\n" := by decide
    have h2 : str "Content-Type: text/html\r\n" = str "Content-Type: text/html" ++ str "\r\n" := by
      decide
    have h4 : str "\r\n\r\n" = str "\r\n" ++ str "\r\n" := by decide
    rw [h1, h2, h4]
    simp only [header_block, List.append_assoc, List.append_nil]



theorem drain_get_ok (fuel : Nat) (buffer input : List Nat) (hfuel : input.length < fuel) :
    ∃ b i, drain_get fuel buffer input = .ok (b, i) := by
  induction fuel generalizing buffer input with
  | zero => omega
  | succ fuel ih =>
    rw [drain_get]
    split
    · next hc =>
      simp only [Bool.and_eq_true, decide_eq_true_eq] at hc
      have := readline_input_lt input buffer 8192 hc.1
      exact ih _ _ (by omega)
    · exact ⟨_, _, rfl⟩

theorem lor_ne_zero (x y : Nat) (h : x ≠ 0 ∨ y ≠ 0) : x ||| y ≠ 0 := by
  intro h0
  have hx : x = 0 := by
    apply Nat.eq_of_testBit_eq
    intro i
    have := congrArg (fun n => Nat.testBit n i) h0
    simp only [Nat.testBit_or, Nat.zero_testBit, Bool.or_eq_false_iff] at this
    simp [this.1]
  have hy : y = 0 := by
    apply Nat.eq_of_testBit_eq
    intro i
    have := congrArg (fun n => Nat.testBit n i) h0
    simp only [Nat.testBit_or, Nat.zero_testBit, Bool.or_eq_false_iff] at this
    simp [this.2]
  rcases h with h | h
  · exact h hx
  · exact h hy

theorem hangup_mask (events : Nat) :
    events &&& (EPOLLHUP ||| EPOLLRDHUP) ≠ 0
      ↔ (events &&& EPOLLHUP ≠ 0 ∨ events &&& EPOLLRDHUP ≠ 0) := by
  rw [Nat.and_or_distrib_left]
  constructor
  · intro h
    by_contra hc
    push_neg at hc
    rw [hc.1, hc.2] at h
    exact h rfl
  · exact lor_ne_zero _ _


theorem read_cgi_one (out buffer : List Nat) (hsize : out.length ≤ 8192) :
    (read_cgi [out] buffer 0).1.take (read_cgi [out] buffer 0).2 = out
      ∧ (read_cgi [out] buffer 0).2 ≤ 8192 := by
  have htake : out.take 8192 = out := List.take_of_length_le hsize
  have hmod : out.length % 2 ^ 32 = out.length := Nat.mod_eq_of_lt (by omega)
  cases out with
  | nil => simp [read_cgi]
  | cons x out =>
    have hpos : 0 < (x :: out).length := by simp
    have hrc : read_cgi [x :: out] buffer 0 = (store (x :: out) buffer, (x :: out).length) := by
      simp only [read_cgi, htake, hpos, if_true, Nat.zero_add, hmod]
    rw [hrc]
    exact ⟨take_store _ _, hsize⟩

theorem exec_cgi_get_one_read (env : Env) (fuel : Nat) (webpath args input out : List Nat)
    (hp1 : env.pipe_p2cgi_ok = true) (hp2 : env.pipe_cgi2p_ok = true) (hfork : env.fork_ok = true)
    (hout : env.cgi_output = [out]) (hsize : out.length ≤ 8192) (hfuel : input.length < fuel) :
    exec_cgi env fuel webpath (str "GET") args input
      = .ok (env.cgi_exit_status,
          [Effect.pipe_p2cgi, Effect.pipe_cgi2p,
           Effect.fork (exec_cgi_child webpath (str "GET") args 0),
           Effect.close PipeEnd.p2cgi_read, Effect.close PipeEnd.cgi2p_write,
           Effect.send make_headers, Effect.send out,
           Effect.close PipeEnd.p2cgi_write, Effect.close PipeEnd.cgi2p_read,
           Effect.waitpid]) := by
  obtain ⟨b, i, hd⟩ := drain_get_ok fuel (array 8192 env.junk_cgi) input hfuel
  obtain ⟨hbody, hsz⟩ := read_cgi_one out b hsize
  have hg : strcmp0 (str "GET") (str "GET") = true := by decide
  have hnp : strcasecmp0 (str "GET") (str "POST") = false := by decide
  simp only [exec_cgi, hg, if_true, hd, exec_cgi_run, hp1, hp2, hfork, Bool.not_true,
    Bool.false_eq_true, if_false, hnp, exec_cgi_relay, hout, hsz, hbody, List.cons_append,
    List.nil_append]

/-! ## The claims -/

/-- C1 (code bug): a request line whose first token has 32 bytes, here 32
times the letter A, makes `do_session` write past the end of `method[32]`
(the terminating NUL goes to `method[32]`); no 501 response is sent. This
holds for every environment and every loop bound. -/
theorem do_session_long_method_overflow (env : Env) (fuel : Nat) :
    do_session env fuel (str "AAAAAAAAAAAAAAAAAAAAAAAAAAAAAAAA / HTTP/1.0\r\n\r\n")
      = .error Stop.methodOverflow := by
  rfl

/-- C2 (amended): for every GET request (method in any letter case) whose
path, the second token of the request line read as a C string, has no `?`
and resolves to an existing regular file without an executable bit that can
be opened, `do_session` sends a response whose status line is
"HTTP/1.0 200 OK" and whose Content-Length value is the number of body bytes
sent, which are the first 8192 bytes of the file at most. -/
theorem do_session_get_static (env : Env) (fuel : Nat) (method sep url tail : List Nat)
    (c : Nat) (st_mode : Nat) (content : List Nat)
    (hreq : RequestLine method sep url c) (hget : strcasecmp0 method (str "GET") = true)
    (hquery : 63 ∉ cstr url) (hpath : env.webRoot ++ cstr url ≠ [])
    (hstat : env.stat64 (webpath_for env (cstr url)) = some st_mode)
    (hreg : st_mode &&& S_IFMT = S_IFREG) (hnox : st_mode &&& S_IXANY = 0)
    (hopen : env.ifstream_open (webpath_for env (cstr url)) = some content)
    (hfuel : 0 < fuel) :
    do_session env fuel (method ++ sep ++ url ++ c :: tail)
      = .ok (0, [Effect.stat64 (webpath_for env (cstr url)),
          Effect.ifstream_open (webpath_for env (cstr url)),
          Effect.send (str "HTTP/1.0 200 OK\r\n" ++ str "Server: tinyhttpd/0.0.1\r\n"
            ++ str "Content-Type: text/html\r\n"
            ++ (str "Content-Length: " ++ to_string (content.take 8192).length
                ++ str "\r\n\r\n")),
          Effect.send (content.take 8192),
          Effect.ifstream_close]) := by
  obtain ⟨numchars, buffer, input, -, h⟩ := do_session_parsed env fuel method sep url tail c hreq
  have hnp : strcasecmp0 method (str "POST") = false := not_post_of_get method hget
  have hcont : (cstr url).contains 63 = false := by simpa using hquery
  rw [h, hcont, Bool.and_false, if_neg (by decide), hnp,
    do_session_resolve_static env fuel numchars st_mode buffer method (cstr url) [] input hpath
      hstat hreg hnox,
    get_content_open env fuel _ content hopen hfuel]
  rfl

/-- C2 (witness): `GET /index.html` on the sample site, with one space or
with a tab and two spaces before the path, is answered with 200 OK,
"Content-Length: 50" and the 50 bytes of the page. -/
theorem do_session_get_static_witness :
    site.stat64 (str "/www/index.html") = some 0o100644
      ∧ site.ifstream_open (str "/www/index.html") = some page50
      ∧ do_session site 1 (str "GET /index.html HTTP/1.0\r\n\r\n")
        = .ok (0, [Effect.stat64 (str "/www/index.html"),
            Effect.ifstream_open (str "/www/index.html"),
            Effect.send (str ("HTTP/1.0 200 OK\r\nServer: tinyhttpd/0.0.1\r\n"
              ++ "Content-Type: text/html\r\nContent-Length: 50\r\n\r\n")),
            Effect.send page50,
            Effect.ifstream_close])
      ∧ do_session site 1 (str "get\t  /index.html\r\n\r\n")
        = .ok (0, [Effect.stat64 (str "/www/index.html"),
            Effect.ifstream_open (str "/www/index.html"),
            Effect.send (str ("HTTP/1.0 200 OK\r\nServer: tinyhttpd/0.0.1\r\n"
              ++ "Content-Type: text/html\r\nContent-Length: 50\r\n\r\n")),
            Effect.send page50,
            Effect.ifstream_close]) :=
  ⟨rfl, rfl,
    do_session_get_static site 1 (str "GET") (str " ") (str "/index.html")
      (str "HTTP/1.0\r\n\r\n") 32 0o100644 page50
      ⟨Or.inl (by decide), by decide, by decide, by decide, by decide, by decide, by decide,
        by decide, by decide, by decide⟩
      (by decide) (by decide) (by decide) rfl (by decide) (by decide) rfl (by decide),
    do_session_get_static site 1 (str "get") (str "\t  ") (str "/index.html")
      (str "\n\r\n") 13 0o100644 page50
      ⟨Or.inl (by decide), by decide, by decide, by decide, by decide, by decide, by decide,
        by decide, by decide, by decide⟩
      (by decide) (by decide) (by decide) rfl (by decide) (by decide) rfl (by decide)⟩

/-- C2 (counterexample): on the sample site, where `/www/index.html` is an
existing, regular, non-executable file, `POST /index.html` without a
Content-Length header is handed to the CGI executor and answered with 400 Bad
request, not 200 OK; and `GET /index.html?x=1`, whose path resolves to the
same file, is handed to the CGI executor too (the `?` forces it): the file is
never opened and the response, two header lines, has no Content-Length. -/
theorem do_session_post_static_not_200 :
    site.stat64 (str "/www/index.html") = some 0o100644
      ∧ site.ifstream_open (str "/www/index.html") = some page50
      ∧ do_session site 100 (str "POST /index.html HTTP/1.0\r\n\r\n")
        = .ok (bad_request.length,
            [Effect.stat64 (str "/www/index.html"), Effect.send bad_request])
      ∧ str "HTTP/1.0 400 Bad request\r\n" <+: bad_request
      ∧ ¬ (str "HTTP/1.0 200 OK\r\n" <+: bad_request)
      ∧ site_quiet.stat64 (str "/www/index.html") = some 0o100644
      ∧ site_quiet.ifstream_open (str "/www/index.html") = some page50
      ∧ ∃ trace, do_session site_quiet 100 (str "GET /index.html?x=1 HTTP/1.0\r\n\r\n")
            = .ok (0, trace)
          ∧ Effect.stat64 (str "/www/index.html") ∈ trace
          ∧ Effect.ifstream_open (str "/www/index.html") ∉ trace
          ∧ sent trace = str "HTTP/1.0 200 OK\r\nServer: tinyhttpd/0.0.1\r\n"
          ∧ ¬ (str "Content-Length" <:+: sent trace) :=
  ⟨rfl, rfl, rfl, by decide, by decide, rfl, rfl, _, rfl, by decide, by decide, rfl, by decide⟩

/-- C3: for every file content of fewer than 8192 bytes (none included),
`get_content` on a path that opens to that file sends the header block ending
in "Content-Length: N" and an empty line, N being the file's length, and then
a body that is exactly the file's bytes. -/
theorem get_content_round_trip (env : Env) (fuel : Nat) (webpath content : List Nat)
    (hopen : env.ifstream_open webpath = some content) (hsize : content.length < 8192)
    (hfuel : 0 < fuel) :
    get_content env fuel webpath
      = .ok (0, [Effect.ifstream_open webpath,
          Effect.send (str "HTTP/1.0 200 OK\r\n" ++ str "Server: tinyhttpd/0.0.1\r\n"
            ++ str "Content-Type: text/html\r\n"
            ++ (str "Content-Length: " ++ to_string content.length ++ str "\r\n\r\n")),
          Effect.send content,
          Effect.ifstream_close]) := by
  have h := get_content_open env fuel webpath content hopen hfuel
  have ht : content.take 8192 = content := List.take_of_length_le (by omega)
  rw [ht] at h
  exact h

/-- C3 (witness): the 50-byte `index.html` of the sample site gives
"Content-Length: 50" and the same 50 bytes. -/
theorem get_content_round_trip_witness :
    page50.length = 50
      ∧ get_content site 1 (str "/www/index.html")
        = .ok (0, [Effect.ifstream_open (str "/www/index.html"),
            Effect.send (str ("HTTP/1.0 200 OK\r\nServer: tinyhttpd/0.0.1\r\n"
              ++ "Content-Type: text/html\r\nContent-Length: 50\r\n\r\n")),
            Effect.send page50,
            Effect.ifstream_close]) :=
  ⟨by decide,
    get_content_round_trip site 1 (str "/www/index.html") page50 rfl (by decide) (by decide)⟩

/-- C4 (amended): for every request line whose method is GET or POST (in any
letter case) and whose path does not resolve under the web root (`stat64` of
web root + path, with "index.html" appended after a trailing `/`, fails; the
path is the second token read as a C string, for GET cut before the first
`?`), `do_session` sends the 404 response and nothing else. -/
theorem do_session_supported_not_found (env : Env) (fuel : Nat)
    (method sep url tail : List Nat) (c : Nat) (hreq : RequestLine method sep url c)
    (hpath : env.webRoot ++ request_path method url ≠ [])
    (hstat : env.stat64 (webpath_for env (request_path method url)) = none)
    (hfuel : (method ++ sep ++ url ++ c :: tail).length < fuel) :
    do_session env fuel (method ++ sep ++ url ++ c :: tail)
        = .ok (not_found.length,
            [Effect.stat64 (webpath_for env (request_path method url)), Effect.send not_found])
      ∧ str "HTTP/1.0 404 Not found\r\n" <+: not_found := by
  refine ⟨?_, by decide⟩
  obtain ⟨numchars, buffer, input, hin, h⟩ :=
    do_session_parsed env fuel method sep url tail c hreq
  have hf : 0 < numchars → input.length < fuel := fun hn => by have := hin hn; omega
  rw [h]
  unfold request_path at hstat hpath ⊢
  by_cases hg : strcasecmp0 method (str "GET") = true
  · rw [hg] at hstat hpath ⊢
    simp only [if_true] at hstat hpath ⊢
    by_cases hq : (cstr url).contains 63 = true
    · rw [hq]
      simp only [Bool.and_self, if_true]
      exact do_session_resolve_not_found env fuel numchars buffer method _ _ input true hpath
        hstat hf
    · have hq2 : (cstr url).contains 63 = false := by simpa using hq
      have htw : (cstr url).takeWhile (fun c => c != 63) = cstr url := by
        rw [List.takeWhile_eq_self_iff]
        intro x hx
        have : 63 ∉ cstr url := by simpa using hq2
        simp only [bne_iff_ne, ne_eq]
        rintro rfl
        exact this hx
      rw [htw] at hstat hpath ⊢
      rw [hq2]
      simp only [Bool.and_false, Bool.false_eq_true, if_false]
      exact do_session_resolve_not_found env fuel numchars buffer method _ _ input _ hpath
        hstat hf
  · have hg2 : strcasecmp0 method (str "GET") = false := by simpa using hg
    rw [hg2] at hstat hpath ⊢
    simp only [Bool.false_and, Bool.false_eq_true, if_false] at hstat hpath ⊢
    exact do_session_resolve_not_found env fuel numchars buffer method _ _ input _ hpath
      hstat hf

/-- C4 (witness): `GET /nope.html` and, with two spaces before the path,
`post  /nope.html?x` on the sample site, where neither path exists, are both
answered with 404. -/
theorem do_session_supported_not_found_witness :
    site.stat64 (str "/www/nope.html") = none
      ∧ site.stat64 (str "/www/nope.html?x") = none
      ∧ (do_session site 100 (str "GET /nope.html HTTP/1.0\r\n\r\n")
          = .ok (not_found.length, [Effect.stat64 (str "/www/nope.html"), Effect.send not_found])
        ∧ str "HTTP/1.0 404 Not found\r\n" <+: not_found)
      ∧ (do_session site 100 (str "post  /nope.html?x HTTP/1.0\r\n\r\n")
          = .ok (not_found.length,
              [Effect.stat64 (str "/www/nope.html?x"), Effect.send not_found])
        ∧ str "HTTP/1.0 404 Not found\r\n" <+: not_found) :=
  ⟨rfl, rfl,
    do_session_supported_not_found site 100 (str "GET") (str " ") (str "/nope.html")
      (str "HTTP/1.0\r\n\r\n") 32
      ⟨Or.inl (by decide), by decide, by decide, by decide, by decide, by decide, by decide,
        by decide, by decide, by decide⟩
      (by decide) rfl (by decide),
    do_session_supported_not_found site 100 (str "post") (str "  ") (str "/nope.html?x")
      (str "HTTP/1.0\r\n\r\n") 32
      ⟨Or.inr (by decide), by decide, by decide, by decide, by decide, by decide, by decide,
        by decide, by decide, by decide⟩
      (by decide) rfl (by decide)⟩

/-- C4 (counterexample): `PUT /nope.html` on the sample site, where
`nope.html` does not exist, is answered with 501, not 404, and no `stat64`
call is made. -/
theorem do_session_put_missing_is_501 :
    site.stat64 (str "/www/nope.html") = none
      ∧ do_session site 100 (str "PUT /nope.html HTTP/1.0\r\n\r\n")
        = .ok (not_implemented.length, [Effect.send not_implemented])
      ∧ str "HTTP/1.0 501 not implemented\r\n" <+: not_implemented
      ∧ ¬ (str "HTTP/1.0 404" <+: not_implemented) :=
  ⟨rfl, rfl, by decide, by decide⟩

/-- C5: for every POST request (method in any letter case) whose header
lines, up to the empty line, contain no Content-Length header, `exec_cgi`
sends the 400 response and returns; its only system call is that `send`, so
no pipe is created and no child process is forked. -/
theorem exec_cgi_post_without_content_length (env : Env) (fuel : Nat)
    (webpath method args input : List Nat)
    (hmethod : strcasecmp0 method (str "POST") = true)
    (_hnone : ∀ line ∈ header_lines fuel input,
      strncasecmp0 (str "Content-Length:") line 15 = false)
    (hfuel : input.length < fuel) :
    exec_cgi env fuel webpath method args input
        = .ok (bad_request.length, [Effect.send bad_request])
      ∧ str "HTTP/1.0 400 Bad request\r\n" <+: bad_request :=
  ⟨exec_cgi_post_bad_request env fuel webpath method args input (not_get_of_post method hmethod)
    hfuel, by decide⟩

/-- C5 (witness): a POST to the executable of the sample site with the header
line "Host: x" only is answered with 400. -/
theorem exec_cgi_post_without_content_length_witness :
    header_lines 100 (str "Host: x\r\n\r\n") = [str "Host: x\n"]
      ∧ exec_cgi site 100 (str "/www/cgi") (str "POST") [] (str "Host: x\r\n\r\n")
        = .ok (bad_request.length, [Effect.send bad_request])
      ∧ str "HTTP/1.0 400 Bad request\r\n" <+: bad_request :=
  ⟨by decide,
    exec_cgi_post_without_content_length site 100 (str "/www/cgi") (str "POST") []
      (str "Host: x\r\n\r\n") (by decide) (by decide) (by decide)⟩

/-- C6 (code bug): on the header block "Content-Length: 5", an empty line and
the body "hello", the header drain of `exec_cgi` leaves `content_len` at 0
(the line is cut to "Content-Length:" by `buffer[15] = 0` before `strtoul`
reads it from its first byte), so the POST is answered with 400 and no pipe
is created, in every environment. -/
theorem exec_cgi_post_content_length_ignored (env : Env) (webpath args : List Nat) :
    (∃ buffer, drain_post 100 (array 8192 env.junk_cgi)
        (str "Content-Length: 5\r\n\r\nhello") 0 = .ok (buffer, str "hello", 0))
      ∧ exec_cgi env 100 webpath (str "POST") args (str "Content-Length: 5\r\n\r\nhello")
        = .ok (bad_request.length, [Effect.send bad_request]) :=
  ⟨⟨_, rfl⟩, rfl⟩

/-- C7 (code bug): for `GET /cgi?x=1` on the sample site the path is resolved
from `/cgi` alone and CGI is run, but the query string handed to `exec_cgi`
and exported by the child is "?x=1", the `?` included. -/
theorem do_session_query_keeps_question_mark :
    do_session site 100 (str "GET /cgi?x=1 HTTP/1.0\r\n\r\n")
      = .ok (0, [Effect.stat64 (str "/www/cgi"),
          Effect.pipe_p2cgi, Effect.pipe_cgi2p,
          Effect.fork
            [ChildEffect.dup2 PipeEnd.p2cgi_read 0,
             ChildEffect.dup2 PipeEnd.cgi2p_write 1,
             ChildEffect.close PipeEnd.p2cgi_write,
             ChildEffect.close PipeEnd.cgi2p_read,
             ChildEffect.putenv (str "REQUEST_METHOD=GET"),
             ChildEffect.putenv (str "QUERY_STRING=?x=1"),
             ChildEffect.execl (str "/www/cgi")],
          Effect.close PipeEnd.p2cgi_read, Effect.close PipeEnd.cgi2p_write,
          Effect.send make_headers, Effect.send (str "cba"),
          Effect.close PipeEnd.p2cgi_write, Effect.close PipeEnd.cgi2p_read,
          Effect.waitpid]) := by
  rfl

/-- C8 (amended): the error responder (`assemble`, for each of the eight
statuses) and the static content server (`get_content`, for a file that
opens) write a response in the wire format, with a Content-Type header and a
Content-Length header whose value is the byte length of the body. The CGI
executor (`exec_cgi`, for a GET whose pipes and fork succeed and whose child's
output, of at most 8192 bytes, arrives in one `read`) writes the status line
"HTTP/1.0 200 OK", the Server line and then at once the child's output as it
is: no content header and no empty line of its own. -/
theorem response_wire_format :
    (∀ status_code : HTTP_STATUS_CODE,
      WireFormat (assemble status_code)
        [str "Content-Type: text/html; charset=utf8",
         str "Content-Length: " ++ to_string (http_body status_code).length]
        (http_body status_code))
    ∧ (∀ (env : Env) (fuel : Nat) (webpath content : List Nat),
        env.ifstream_open webpath = some content → 0 < fuel →
        ∃ header,
          get_content env fuel webpath
            = .ok (0, [Effect.ifstream_open webpath, Effect.send header,
                Effect.send (content.take 8192), Effect.ifstream_close])
          ∧ WireFormat (header ++ content.take 8192)
              [str "Content-Type: text/html",
               str "Content-Length: " ++ to_string (content.take 8192).length]
              (content.take 8192))
    ∧ (∀ (env : Env) (fuel : Nat) (webpath args input out : List Nat),
        env.pipe_p2cgi_ok = true → env.pipe_cgi2p_ok = true → env.fork_ok = true →
        env.cgi_output = [out] → out.length ≤ 8192 → input.length < fuel →
        ∃ trace, exec_cgi env fuel webpath (str "GET") args input
            = .ok (env.cgi_exit_status, trace)
          ∧ sent trace
            = str "HTTP/1.0 200 OK\r\n" ++ str "Server: tinyhttpd/0.0.1\r\n" ++ out) := by
  refine ⟨assemble_wire_format, ?_, ?_⟩
  · intro env fuel webpath content hopen hfuel
    exact ⟨_, get_content_open env fuel webpath content hopen hfuel,
      get_content_wire_format (content.take 8192)⟩
  · intro env fuel webpath args input out hp1 hp2 hfork hout hsize hfuel
    refine ⟨_, exec_cgi_get_one_read env fuel webpath args input out hp1 hp2 hfork hout hsize
      hfuel, ?_⟩
    simp [sent, make_headers]

/-- C8 (witness): the 404 response, the response to a read of `index.html`
on the sample site and the response of the sample CGI that writes "hi". -/
theorem response_wire_format_witness :
    WireFormat (assemble HTTP_STATUS_404)
        [str "Content-Type: text/html; charset=utf8", str "Content-Length: 144"]
        (http_body HTTP_STATUS_404)
    ∧ (∃ header,
        get_content site 1 (str "/www/index.html")
          = .ok (0, [Effect.ifstream_open (str "/www/index.html"), Effect.send header,
              Effect.send page50, Effect.ifstream_close])
        ∧ WireFormat (header ++ page50)
            [str "Content-Type: text/html", str "Content-Length: 50"] page50)
    ∧ (∃ trace, exec_cgi site_hi 3 (str "/www/cgi") (str "GET") [] (str "\r\n") = .ok (0, trace)
        ∧ sent trace
          = str "HTTP/1.0 200 OK\r\n" ++ str "Server: tinyhttpd/0.0.1\r\n" ++ str "hi") :=
  ⟨response_wire_format.1 HTTP_STATUS_404,
    response_wire_format.2.1 site 1 (str "/www/index.html") page50 rfl (by decide),
    response_wire_format.2.2 site_hi 3 (str "/www/cgi") [] (str "\r\n") (str "hi") rfl rfl rfl
      rfl (by decide) (by decide)⟩

/-- C8 (counterexample): for a CGI child that writes "hi", `exec_cgi` sends
"HTTP/1.0 200 OK", the Server line and "hi"; these bytes are not in the wire
format for any headers and body, since no empty line comes before "hi". -/
theorem exec_cgi_response_not_wire_format :
    ∃ trace, exec_cgi site_hi 3 (str "/www/cgi") (str "GET") [] (str "\r\n") = .ok (0, trace)
      ∧ sent trace = str "HTTP/1.0 200 OK\r\nServer: tinyhttpd/0.0.1\r\nhi"
      ∧ ¬ ∃ headers body, WireFormat (sent trace) headers body := by
  refine ⟨_, rfl, rfl, ?_⟩
  rintro ⟨headers, body, h⟩
  have hblank := wireFormat_blank_line _ _ _ h
  revert hblank
  decide

/-- C9 (amended): for every readiness event delivered to `session_handler`
for a live connection context that is in the registry: if the event mask has
a hangup bit (`EPOLLHUP` or `EPOLLRDHUP`) and deregistration succeeds, the
connection is torn down: the context is no longer in the registry, exactly
one element was removed, the socket was closed exactly once and the context
freed. If the mask has no hangup bit but the error bit `EPOLLERR`, the
handler only writes a log line: registry, contexts and socket are as
before. -/
theorem session_handler_teardown (env : Env) (fuel : Nat) (input : List Nat)
    (event : epoll_event) (s : Server) (event_data : EventData)
    (hlive : s.heap event.ptr = some event_data) (hreg : event.ptr ∈ s.data_set) :
    ((event.events &&& EPOLLHUP ≠ 0 ∨ event.events &&& EPOLLRDHUP ≠ 0) →
      ∃ s1, session_handler env fuel input true event s = .ok s1
        ∧ event.ptr ∉ s1.data_set
        ∧ s1.data_set = s.data_set.erase event.ptr
        ∧ s1.data_set.card + 1 = s.data_set.card
        ∧ s1.heap event.ptr = none
        ∧ ∃ made, s1.calls = s.calls ++ made
            ∧ made.count (SysCall.close event_data.sock_fd) = 1)
    ∧ (event.events &&& EPOLLHUP = 0 → event.events &&& EPOLLRDHUP = 0 →
        event.events &&& EPOLLERR ≠ 0 →
        ∀ epoll_ctl_ok, session_handler env fuel input epoll_ctl_ok event s
          = .ok { s with calls := s.calls ++ [SysCall.log] }) := by
  constructor
  · intro hup
    have hmask := (hangup_mask event.events).mpr hup
    refine ⟨{ heap := fun p => if p = event.ptr then none else s.heap p
              data_set := s.data_set.erase event.ptr
              calls := s.calls
                ++ [SysCall.epoll_ctl_del event_data.ep_fd event_data.sock_fd,
                    SysCall.shutdown event_data.sock_fd,
                    SysCall.close event_data.sock_fd,
                    SysCall.delete_EventData event.ptr] }, ?_, ?_, rfl, ?_, ?_, ⟨_, rfl, ?_⟩⟩
    · simp only [session_handler, hlive, hmask, if_true, hreg, ne_eq, not_false_eq_true,
        Bool.not_true, Bool.false_eq_true, if_false]
    · simp
    · simp only
      rw [Finset.card_erase_of_mem hreg]
      have : 0 < s.data_set.card := Finset.card_pos.mpr ⟨_, hreg⟩
      omega
    · simp
    · simp [List.count_cons]
  · intro h1 h2 herr ok
    have hmask : ¬ (event.events &&& (EPOLLHUP ||| EPOLLRDHUP) ≠ 0) := by
      rw [hangup_mask]
      push_neg
      exact ⟨h1, h2⟩
    simp only [session_handler, hlive, hmask, if_false, herr, ne_eq, not_false_eq_true, if_true,
      handle_error]
    rfl

/-- C9 (witness): a peer that closes right after `accept_connect` has
accepted it, before sending any byte: the event `EPOLLIN | EPOLLRDHUP` for the
new context empties the registry again and closes socket 7 exactly once. -/
theorem session_handler_teardown_witness :
    accept_connect 7 2 true { events := EPOLLIN, ptr := 1 } idle_server = .ok accepted_server
      ∧ accepted_server.heap 2 = some client
      ∧ 2 ∈ accepted_server.data_set
      ∧ (EPOLLIN ||| EPOLLRDHUP) &&& EPOLLRDHUP ≠ 0
      ∧ ∃ s1, session_handler site 0 [] true { events := EPOLLIN ||| EPOLLRDHUP, ptr := 2 }
            accepted_server = .ok s1
        ∧ 2 ∉ s1.data_set
        ∧ s1.data_set = accepted_server.data_set.erase 2
        ∧ s1.data_set.card + 1 = accepted_server.data_set.card
        ∧ s1.heap 2 = none
        ∧ ∃ made, s1.calls = accepted_server.calls ++ made
            ∧ made.count (SysCall.close 7) = 1 :=
  ⟨rfl, rfl, by decide, by decide,
    (session_handler_teardown site 0 [] { events := EPOLLIN ||| EPOLLRDHUP, ptr := 2 }
      accepted_server client rfl (by decide)).1 (Or.inr (by decide))⟩

/-- C9 (counterexample): an event whose mask is `EPOLLERR` alone, for the
registered context of socket 7, with a deregistration that would succeed:
`session_handler` leaves the context in the registry and closes nothing. -/
theorem session_handler_error_only_no_teardown :
    accepted_server.heap 2 = some client
      ∧ 2 ∈ accepted_server.data_set
      ∧ ∃ s1, session_handler site 0 [] true { events := EPOLLERR, ptr := 2 } accepted_server
            = .ok s1
        ∧ 2 ∈ s1.data_set
        ∧ s1.data_set.card = accepted_server.data_set.card
        ∧ s1.calls = accepted_server.calls ++ [SysCall.log]
        ∧ SysCall.close 7 ∉ s1.calls :=
  ⟨rfl, by decide,
    ⟨{ accepted_server with calls := accepted_server.calls ++ [SysCall.log] },
      rfl, by decide, rfl, rfl, by decide⟩⟩

/-- C10 (code bug): when the child's output arrives in the two chunks "ab"
and "c" (3 bytes in all), `exec_cgi` counts 3 bytes but each `read` stores its
chunk at the start of `buffer`, so the body sent is "cba" ("c" over "ab",
then a byte that was in the buffer before), not "abc". -/
theorem exec_cgi_chunks_overwritten :
    site.cgi_output = [str "ab", str "c"]
      ∧ exec_cgi site 3 (str "/www/cgi") (str "GET") [] (str "\r\n")
        = .ok (0, [Effect.pipe_p2cgi, Effect.pipe_cgi2p,
            Effect.fork (exec_cgi_child (str "/www/cgi") (str "GET") [] 0),
            Effect.close PipeEnd.p2cgi_read, Effect.close PipeEnd.cgi2p_write,
            Effect.send make_headers, Effect.send (str "cba"),
            Effect.close PipeEnd.p2cgi_write, Effect.close PipeEnd.cgi2p_read,
            Effect.waitpid])
      ∧ str "cba" ≠ str "ab" ++ str "c" :=
  ⟨rfl, rfl, by decide⟩

/-! ## Further properties -/

/-- For every request line whose first token is shorter than the 32 bytes of
`method` (the empty token included), is followed by white space and is not
GET or POST in any letter case, `do_session` sends the 501 response and
nothing else: no `stat64`, no static serve, no CGI. -/
theorem do_session_unsupported_method (env : Env) (fuel : Nat) (token tail : List Nat) (c : Nat)
    (htoken : ∀ x ∈ token, isspace x = false) (hlen : token.length < 32)
    (hc : isspace c = true)
    (hget : strcasecmp0 token (str "GET") = false)
    (hpost : strcasecmp0 token (str "POST") = false) :
    do_session env fuel (token ++ c :: tail)
      = .ok (not_implemented.length, [Effect.send not_implemented]) := by
  obtain ⟨c1, X, hc1, hbuf, hnum⟩ :=
    readline_line token c tail (array 1024 env.junk_session)
      (fun x hx => isspace_LF_CR x (htoken x hx)) (by omega) hc
  have hnum2 : (readline (token ++ c :: tail) (array 1024 env.junk_session) 1024).numchars ≠ 0 := by
    omega
  have hcm := copy_method_token token c1 X [] htoken hc1 (by simp; omega)
  rw [do_session, if_neg hnum2, hbuf, hcm]
  simp only [List.nil_append, hlen, if_true, hget, hpost, Bool.not_false, Bool.and_self]

/-- The request `PUT /index.html` is answered with 501. -/
theorem do_session_unsupported_method_witness :
    do_session site 1 (str "PUT /index.html HTTP/1.0\r\n\r\n")
        = .ok (not_implemented.length, [Effect.send not_implemented])
      ∧ str "HTTP/1.0 501 not implemented\r\n" <+: not_implemented :=
  ⟨do_session_unsupported_method site 1 (str "PUT") (str "/index.html HTTP/1.0\r\n\r\n") 32
    (by decide) (by decide) (by decide) (by decide) (by decide), by decide⟩

/-- For every method string other than "GET" (compared exactly, so "get" and
"POST" alike) and every header block, with or without a Content-Length
header, `exec_cgi` leaves `content_len` at 0 and sends the 400 response
without creating a pipe or a child. -/
theorem exec_cgi_every_post_is_400 (env : Env) (fuel : Nat)
    (webpath method args input : List Nat)
    (hmethod : strcmp0 method (str "GET") = false) (hfuel : input.length < fuel) :
    (∃ buffer rest, drain_post fuel (array 8192 env.junk_cgi) input 0 = .ok (buffer, rest, 0))
      ∧ exec_cgi env fuel webpath method args input
        = .ok (bad_request.length, [Effect.send bad_request]) :=
  ⟨drain_post_zero fuel (array 8192 env.junk_cgi) input hfuel,
    exec_cgi_post_bad_request env fuel webpath method args input hmethod hfuel⟩

/-- A lower-case `get` with a Content-Length header is answered with 400. -/
theorem exec_cgi_every_post_is_400_witness :
    exec_cgi site 100 (str "/www/cgi") (str "get") (str "?x=1")
        (str "Content-Length: 5\r\n\r\nhello")
      = .ok (bad_request.length, [Effect.send bad_request]) :=
  (exec_cgi_every_post_is_400 site 100 (str "/www/cgi") (str "get") (str "?x=1")
    (str "Content-Length: 5\r\n\r\nhello") (by decide) (by decide)).2

/-- When the child's whole output, of at most 8192 bytes, arrives in one
`read`, a GET handled by `exec_cgi` creates the two pipes, forks, sends the
two header lines of `make_headers` and then exactly that output, closes its
pipe ends and waits for the child. -/
theorem exec_cgi_single_chunk (env : Env) (fuel : Nat) (webpath args input out : List Nat)
    (hp1 : env.pipe_p2cgi_ok = true) (hp2 : env.pipe_cgi2p_ok = true) (hfork : env.fork_ok = true)
    (hout : env.cgi_output = [out]) (hsize : out.length ≤ 8192)
    (hfuel : input.length < fuel) :
    exec_cgi env fuel webpath (str "GET") args input
      = .ok (env.cgi_exit_status,
          [Effect.pipe_p2cgi, Effect.pipe_cgi2p,
           Effect.fork (exec_cgi_child webpath (str "GET") args 0),
           Effect.close PipeEnd.p2cgi_read, Effect.close PipeEnd.cgi2p_write,
           Effect.send make_headers, Effect.send out,
           Effect.close PipeEnd.p2cgi_write, Effect.close PipeEnd.cgi2p_read,
           Effect.waitpid]) :=
  exec_cgi_get_one_read env fuel webpath args input out hp1 hp2 hfork hout hsize hfuel

/-- The sample CGI that writes "hi" in one piece. -/
theorem exec_cgi_single_chunk_witness :
    exec_cgi site_hi 3 (str "/www/cgi") (str "GET") [] (str "\r\n")
      = .ok (0,
          [Effect.pipe_p2cgi, Effect.pipe_cgi2p,
           Effect.fork (exec_cgi_child (str "/www/cgi") (str "GET") [] 0),
           Effect.close PipeEnd.p2cgi_read, Effect.close PipeEnd.cgi2p_write,
           Effect.send make_headers, Effect.send (str "hi"),
           Effect.close PipeEnd.p2cgi_write, Effect.close PipeEnd.cgi2p_read,
           Effect.waitpid]) :=
  exec_cgi_single_chunk site_hi 3 (str "/www/cgi") [] (str "\r\n") (str "hi") rfl rfl rfl rfl
    (by decide) (by decide)

/-- For a GET request line whose second token is `p?q` (no `?` in `p`) and
whose target exists, `do_session` calls `stat64` on the path resolved from
`p` alone and hands the request to `exec_cgi` whatever the mode bits are;
the query string it passes is `?q`, the `?` included. -/
theorem do_session_get_query (env : Env) (fuel : Nat) (method sep p q tail : List Nat)
    (c : Nat) (st_mode : Nat)
    (hreq : RequestLine method sep (p ++ 63 :: q) c)
    (hget : strcasecmp0 method (str "GET") = true)
    (hnul : ∀ x ∈ p ++ 63 :: q, x ≠ NUL)
    (hp : 63 ∉ p) (hpath : env.webRoot ++ p ≠ [])
    (hstat : env.stat64 (webpath_for env p) = some st_mode) :
    ∃ input,
      do_session env fuel (method ++ sep ++ (p ++ 63 :: q) ++ c :: tail)
        = match exec_cgi env fuel
            (if st_mode &&& S_IFMT = S_IFDIR then webpath_for env p ++ str "/index.html"
             else webpath_for env p) method (63 :: q) input with
          | .error e => .error e
          | .ok (status, trace) => .ok (status, Effect.stat64 (webpath_for env p) :: trace) := by
  obtain ⟨numchars, buffer, input, -, h⟩ :=
    do_session_parsed env fuel method sep (p ++ 63 :: q) tail c hreq
  obtain ⟨last, hlast, hwp⟩ := webpath_last env p hpath
  have hcs : cstr (p ++ 63 :: q) = p ++ 63 :: q := cstr_of_no_nul _ hnul
  have hcont : (p ++ 63 :: q).contains 63 = true := by simp
  have htw : (p ++ 63 :: q).takeWhile (fun c => c != 63) = p := by
    rw [List.takeWhile_append_of_pos (fun x hx => by
      simp only [bne_iff_ne, ne_eq]; rintro rfl; exact hp hx)]
    simp
  have hdw : (p ++ 63 :: q).dropWhile (fun c => c != 63) = 63 :: q := by
    rw [List.dropWhile_append_of_pos (fun x hx => by
      simp only [bne_iff_ne, ne_eq]; rintro rfl; exact hp hx)]
    simp
  refine ⟨input, ?_⟩
  rw [h, hget, hcs, hcont]
  simp only [Bool.and_self, if_true, htw, hdw, do_session_resolve, hlast, hwp, hstat,
    Bool.true_or]

/-- The sample request `GET /cgi?x=1`: `stat64` of `/www/cgi`, then
`exec_cgi` with the query string "?x=1". -/
theorem do_session_get_query_witness :
    ∃ input,
      do_session site 100 (str "GET /cgi?x=1 HTTP/1.0\r\n\r\n")
        = match exec_cgi site 100 (str "/www/cgi") (str "GET") (str "?x=1") input with
          | .error e => .error e
          | .ok (status, trace) => .ok (status, Effect.stat64 (str "/www/cgi") :: trace) :=
  do_session_get_query site 100 (str "GET") (str " ") (str "/cgi") (str "x=1")
    (str "HTTP/1.0\r\n\r\n") 32 0o100755
    ⟨Or.inl (by decide), by decide, by decide, by decide, by decide, by decide, by decide,
      by decide, by decide, by decide⟩
    (by decide) (by decide) (by decide) (by decide) rfl

end Tinyhttpd
